import Mathlib

/-!
# UnixDomainSocketClient

A shallow embedding of `UnixDomainSocketClient.cpp`: the client object, the
operating-system calls it issues (`socket`, `connect`, `send`, `close`), and
the three member functions `openSocket`, `closeSocket`, `sendData` together
with the constructor and the destructor.

The operating system is not part of the program.  It is a parameter: a
`Kernel` answers every system call from the history of the calls issued so
far.  The embedding records each call together with its answer in a trace,
oldest call first, so that statements about which calls were issued, in which
order and with which arguments are statements about that trace.  What a
statement needs to know about the operating system is a hypothesis on the
kernel: `Posix` (the return-value contract of the four calls) and
`RejectsClosed` (a `send` on a closed descriptor fails).  `Host.kernel` is a
kernel that satisfies both; the statements are evaluated on it.

A C `char` is rendered as a Lean `Char`, a `std::string` as a `String`, and a
`const char*` buffer as the `List Char` it points to.  The C type `int` has
32 bits, `size_t` and `ssize_t` have 64.  A call of a member function ends in
one of three ways (`Outcome`): it returns, the process is terminated by `die`,
or the code runs into undefined behaviour, which `openSocket` does when the
path does not fit the `sun_path` array it is copied into.
-/

namespace UDS

/-! ## Constants of the system headers -/

/-- The value of `AF_UNIX` in `<sys/socket.h>` on Linux. -/
def AF_UNIX : Int := 1

/-- The value of `SOCK_DGRAM` in `<sys/socket.h>` on Linux. -/
def SOCK_DGRAM : Int := 2

/-- The value of `sizeof(socketAddr.sun_path)`: `sun_path` is `char[108]` in `<sys/un.h>`. -/
def SUN_PATH_SIZE : Nat := 108

/-- The value of `sizeof(struct sockaddr_un)`: a two-byte family followed by `sun_path`. -/
def SOCKADDR_UN_SIZE : Nat := 110

/-- The largest value of the C type `int` (32 bits). -/
def INT_MAX : Int := 2147483647

/-! ## Data model -/

/-- The C struct `sockaddr_un` after `memset(&socketAddr, 0, sizeof(socketAddr))`:
`sun_path` holds a NUL-terminated string, kept here without its terminator. -/
structure sockaddr_un where
  sun_family : Int
  sun_path : List Char
  deriving DecidableEq, Repr

/-- One request to the operating system, with the arguments of the C call. -/
inductive SysCall where
  | socket (domain : Int) (ty : Int) (protocol : Int)
  | connect (sockfd : Int) (addr : sockaddr_un) (addrlen : Nat)
  | send (sockfd : Int) (buf : List Char) (len : Nat) (flags : Int)
  | close (fd : Int)
  deriving DecidableEq, Repr

/-- A system call together with the value the operating system returned for it. -/
structure Event where
  call : SysCall
  ret : Int
  deriving DecidableEq, Repr

/-- The operating system as the program sees it: the value returned for a call,
given the calls issued before it (oldest first) and their results. -/
abbrev Kernel := List Event → SysCall → Int

/-- What the process has done to the outside so far: the system calls it issued
(oldest first) and the lines it wrote to `std::cout`. -/
structure World where
  trace : List Event
  stdout : List String
  deriving DecidableEq, Repr

/-- The fields of the C++ class: `m_fileDescriptor` (an `int`) and `m_socketPath`. -/
structure UnixDomainSocketClient where
  m_fileDescriptor : Int
  m_socketPath : String
  deriving DecidableEq, Repr

/-- How a call of a member function ends: it returns a value, leaving the object and
the world in some state; or the process was terminated by `die`; or the C++ code
reached undefined behaviour (a write past the end of an array), after which nothing
is known about the execution. -/
inductive Outcome (α : Type) where
  | returned (value : α) (self : UnixDomainSocketClient) (w : World)
  | died (msg : String) (w : World)
  | undefined (w : World)
  deriving DecidableEq, Repr

/-- The world in which a call ended. -/
def Outcome.world {α : Type} : Outcome α → World
  | .returned _ _ w => w
  | .died _ w => w
  | .undefined w => w

/-- Whether the call ended in `die`. -/
def Outcome.isDied {α : Type} : Outcome α → Bool
  | .died _ _ => true
  | _ => false

/-- Whether the call returned to its caller. -/
def Outcome.isReturned {α : Type} : Outcome α → Bool
  | .returned _ _ _ => true
  | _ => false

/-- The system calls issued during a call that started in world `w`: the events its
outcome has beyond those of `w`. -/
def Outcome.issued {α : Type} (o : Outcome α) (w : World) : List Event :=
  o.world.trace.drop w.trace.length

/-! ## Primitives -/

/-- Issue one system call: ask the kernel, and append call and result to the trace. -/
def World.syscall (w : World) (os : Kernel) (call : SysCall) : Int × World :=
  let r := os w.trace call
  (r, { w with trace := w.trace ++ [⟨call, r⟩] })

/-- Write one line to `std::cout` (the text followed by `std::endl`). -/
def World.cout (w : World) (line : String) : World :=
  { w with stdout := w.stdout ++ [line] }

/-- The characters `std::string::c_str()` exposes to a C string function: those before
the first NUL character. -/
def c_str (s : String) : List Char :=
  s.data.takeWhile (fun ch => ch != Char.ofNat 0)

/-- The C call `strcpy(dest, src)` into an array of `capacity` chars that was zeroed
before: the string and its terminator are written if they fit; otherwise the copy
runs past the end of the array, which is undefined behaviour (`none`). -/
def strcpy (capacity : Nat) (src : List Char) : Option (List Char) :=
  if src.length + 1 ≤ capacity then some src else none

/-- Conversion of an `int` argument to the `size_t` parameter of `send` (64 bits). -/
def size_t (n : Int) : Nat :=
  (n % 2 ^ 64).toNat

/-- Conversion of the `ssize_t` result of `send` to the `int` it is stored in. -/
def toInt (x : Int) : Int :=
  (x + 2 ^ 31) % 2 ^ 32 - 2 ^ 31

/-- Modelled from the spec: `die` is declared in `HelperStuff.h`, which is not among the
sources; the spec describes it as the shared routine that prints a diagnostic and
terminates the process immediately. A call of `die` therefore ends the execution. -/
def die {α : Type} (msg : String) (w : World) : Outcome α :=
  .died msg w

/-! ## The class -/

/-- The constructor: `m_fileDescriptor(0)`, `m_socketPath(socketPath)`, empty body. -/
def UnixDomainSocketClient.ctor (socketPath : String) : UnixDomainSocketClient :=
  { m_fileDescriptor := 0, m_socketPath := socketPath }

/-- The member function `openSocket`. -/
def openSocket (os : Kernel) (self : UnixDomainSocketClient) (w : World) : Outcome Int :=
  let w0 := w.cout ("[i] open UNIX domain socket " ++ self.m_socketPath ++ "...")
  match strcpy SUN_PATH_SIZE (c_str self.m_socketPath) with
  | none => .undefined w0
  | some path =>
    let socketAddr : sockaddr_un := { sun_family := AF_UNIX, sun_path := path }
    let (fd, w1) := w0.syscall os (.socket AF_UNIX SOCK_DGRAM 0)
    let self1 := { self with m_fileDescriptor := fd }
    if self1.m_fileDescriptor == -1 then
      die "[!] socket error" w1
    else
      let (rc, w2) := w1.syscall os (.connect self1.m_fileDescriptor socketAddr SOCKADDR_UN_SIZE)
      if rc == -1 then
        die "[!] connect error" w2
      else
        .returned self1.m_fileDescriptor self1 w2

/-- The member function `closeSocket`. -/
def closeSocket (os : Kernel) (self : UnixDomainSocketClient) (w : World) : Outcome Int :=
  let w0 := w.cout ("[i] close UNIX domain socket " ++ self.m_socketPath ++ "...")
  let (rc, w1) := w0.syscall os (.close self.m_fileDescriptor)
  if rc != 0 then
    die "[i] close error" w1
  else
    .returned self.m_fileDescriptor self w1

/-- The member function `sendData`. -/
def sendData (os : Kernel) (self : UnixDomainSocketClient) (dataBuffer : List Char)
    (dataBufferSize : Int) (w : World) : Outcome Int :=
  if self.m_fileDescriptor == 0 then
    .returned (-1) self w
  else
    let (r, w1) := w.syscall os (.send self.m_fileDescriptor dataBuffer (size_t dataBufferSize) 0)
    let sendCounter := toInt r
    if sendCounter == -1 then
      die "[!] sender: send failed" w1
    else
      .returned sendCounter self w1

/-- The destructor: it calls `closeSocket()` and discards the value. -/
def UnixDomainSocketClient.dtor (os : Kernel) (self : UnixDomainSocketClient) (w : World) :
    Outcome Unit :=
  match closeSocket os self w with
  | .returned _ self1 w1 => .returned () self1 w1
  | .died msg w1 => .died msg w1
  | .undefined w1 => .undefined w1

/-! ## Call sequences -/

/-- One call of a member function by the owning application. -/
inductive Op where
  | openSocket
  | sendData (dataBuffer : List Char) (dataBufferSize : Int)
  | closeSocket
  deriving DecidableEq, Repr

/-- Perform one call. -/
def exec (os : Kernel) (op : Op) (self : UnixDomainSocketClient) (w : World) : Outcome Int :=
  match op with
  | .openSocket => openSocket os self w
  | .sendData dataBuffer dataBufferSize => sendData os self dataBuffer dataBufferSize w
  | .closeSocket => closeSocket os self w

/-- Perform a sequence of calls in order, discarding the returned values; the sequence
stops at the first call that does not return. -/
def run (os : Kernel) : List Op → UnixDomainSocketClient → World → Outcome Unit
  | [], self, w => .returned () self w
  | op :: rest, self, w =>
    match exec os op self w with
    | .returned _ self1 w1 => run os rest self1 w1
    | .died msg w1 => .died msg w1
    | .undefined w1 => .undefined w1

/-- Whether a call is a call of `openSocket`. -/
def Op.isOpen : Op → Bool
  | .openSocket => true
  | _ => false

/-- Whether a call is a call of `closeSocket`. -/
def Op.isClose : Op → Bool
  | .closeSocket => true
  | _ => false

/-- Whether a call is a call of `sendData`. -/
def Op.isSend : Op → Bool
  | .sendData _ _ => true
  | _ => false

/-! ## What a trace says about the operating system -/

/-- The failure indication of the four system calls: the value `-1`. -/
def Event.failed (e : Event) : Bool :=
  e.ret == -1

/-- The return-value contract of the four calls (POSIX): `socket` answers `-1` or a
descriptor, `connect` and `close` answer `0` or `-1`, `send` answers `-1` or a byte
count; descriptors and byte counts are values of the C type `int`. -/
def legal : SysCall → Int → Bool
  | .socket _ _ _, r => r == -1 || (decide (0 ≤ r) && decide (r ≤ INT_MAX))
  | .connect _ _ _, r => r == 0 || r == -1
  | .send _ _ _ _, r => r == -1 || (decide (0 ≤ r) && decide (r ≤ INT_MAX))
  | .close _, r => r == 0 || r == -1

/-- A kernel that keeps the return-value contract at every call. -/
def Posix (os : Kernel) : Prop :=
  ∀ (hist : List Event) (call : SysCall), legal call (os hist call) = true

/-- What is known about a descriptor: it was closed, or it is an open socket,
connected to `peer` if a `connect` on it succeeded. -/
inductive FdState where
  | closed
  | sock (peer : Option sockaddr_un)
  deriving DecidableEq, Repr

/-- The effect of one event on what is known about descriptor `fd`: a successful
`socket` that returns `fd` makes it an open, unconnected socket; a successful `connect`
on it sets its peer; a successful `close` on it closes it. -/
def fdStep (fd : Int) (st : Option FdState) (e : Event) : Option FdState :=
  match e.call with
  | .socket _ _ _ => if 0 ≤ e.ret ∧ e.ret = fd then some (.sock none) else st
  | .connect sockfd addr _ =>
    if sockfd = fd ∧ e.ret = 0 then
      match st with
      | some (.sock _) => some (.sock (some addr))
      | _ => st
    else st
  | .send _ _ _ _ => st
  | .close closed => if closed = fd ∧ e.ret = 0 then some .closed else st

/-- What the history of system calls says about descriptor `fd`; `none` when no call
has created or closed it (it is then as the process inherited it). -/
def fdState (trace : List Event) (fd : Int) : Option FdState :=
  trace.foldl (fdStep fd) none

/-- The address `openSocket` builds from a path that fits `sun_path`. -/
def addressOf (socketPath : String) : sockaddr_un :=
  { sun_family := AF_UNIX, sun_path := c_str socketPath }

/-- The Connection invariant of the data model: the handle is the sentinel `0`, or it
names a socket that is open and connected to the address of the client's path. -/
def Connected (self : UnixDomainSocketClient) (w : World) : Prop :=
  self.m_fileDescriptor = 0 ∨
    fdState w.trace self.m_fileDescriptor = some (.sock (some (addressOf self.m_socketPath)))

instance (self : UnixDomainSocketClient) (w : World) : Decidable (Connected self w) := by
  unfold Connected; infer_instance

/-- A kernel that rejects a `send` on a descriptor that has been closed (`EBADF`). -/
def RejectsClosed (os : Kernel) : Prop :=
  ∀ (hist : List Event) (fd : Int) (buf : List Char) (len : Nat) (flags : Int),
    fdState hist fd = some .closed → os hist (.send fd buf len flags) = -1

/-- The number of successful `close` calls on descriptor `fd` in a trace. -/
def releases (trace : List Event) (fd : Int) : Nat :=
  trace.countP (fun e => e == ⟨.close fd, 0⟩)

/-- The path is a C string that fits `sun_path` with its terminator. -/
def FitsSunPath (socketPath : String) : Prop :=
  (c_str socketPath).length + 1 ≤ SUN_PATH_SIZE

instance (socketPath : String) : Decidable (FitsSunPath socketPath) := by
  unfold FitsSunPath; infer_instance

/-- The path has no NUL character, so that `c_str` exposes all of it. -/
def NulFree (socketPath : String) : Prop :=
  Char.ofNat 0 ∉ socketPath.data

instance (socketPath : String) : Decidable (NulFree socketPath) := by
  unfold NulFree; infer_instance

/-! ## The calls the member functions issue -/

/-- The call `socket(AF_UNIX, SOCK_DGRAM, 0)` of `openSocket`. -/
def socketCall : SysCall :=
  .socket AF_UNIX SOCK_DGRAM 0

/-- The call `connect(fd, &socketAddr, sizeof(socketAddr))` of `openSocket`, for a path
that fits `sun_path`. -/
def connectCall (fd : Int) (socketPath : String) : SysCall :=
  .connect fd (addressOf socketPath) SOCKADDR_UN_SIZE

/-- The call `send(fd, dataBuffer, dataBufferSize, 0)` of `sendData`. -/
def sendCall (fd : Int) (dataBuffer : List Char) (dataBufferSize : Int) : SysCall :=
  .send fd dataBuffer (size_t dataBufferSize) 0

/-- The line `openSocket` writes to `std::cout`. -/
def openLine (self : UnixDomainSocketClient) : String :=
  "[i] open UNIX domain socket " ++ self.m_socketPath ++ "..."

/-- The line `closeSocket` writes to `std::cout`. -/
def closeLine (self : UnixDomainSocketClient) : String :=
  "[i] close UNIX domain socket " ++ self.m_socketPath ++ "..."

/-- The `close` calls among some events. -/
def closeCalls (events : List Event) : List Event :=
  events.filter (fun e => match e.call with
    | .close _ => true
    | _ => false)

/-- Whether, in a sequence of calls, a `closeSocket` comes after the last `openSocket`. -/
def closedAfterOpen : List Op → Bool
  | [] => false
  | op :: rest =>
    if rest.any Op.isOpen then closedAfterOpen rest else op.isOpen && rest.any Op.isClose

/-- The fatal-error policy for one call that started in world `w`: the call ended in
`die` exactly when one of the system calls it issued failed, and it returned to its
caller exactly when none of them failed. -/
def FailFast {α : Type} (o : Outcome α) (w : World) : Prop :=
  (o.isDied = true ↔ ∃ e ∈ o.issued w, e.failed = true) ∧
    (o.isReturned = true ↔ ∀ e ∈ o.issued w, e.failed = false)

instance {α : Type} (o : Outcome α) (w : World) : Decidable (FailFast o w) := by
  unfold FailFast; infer_instance

/-- Whether an event is a `socket` call that returned descriptor `fd`: the operating
system handed `fd` out. -/
def Event.handsOut (e : Event) (fd : Int) : Bool :=
  match e.call with
  | .socket _ _ _ => e.ret == fd
  | _ => false

/-! ## A reference kernel -/

/-- The surroundings of the process: the descriptors it inherits, the paths at which
a datagram socket is bound, and the number of descriptors it may hold. -/
structure Host where
  inherited : List Int
  listeners : List (List Char)
  nofile : Nat

/-- The largest datagram the reference kernel accepts (the default send buffer size). -/
def SNDBUF : Nat := 212992

/-- Whether descriptor `fd` is open on the host after the given history. -/
def Host.inUse (h : Host) (hist : List Event) (fd : Int) : Bool :=
  match fdState hist fd with
  | some .closed => false
  | some (.sock _) => true
  | none => h.inherited.contains fd

/-- The reference kernel: `socket` hands out the lowest descriptor not in use, `connect`
succeeds on an open socket when a listener is bound to the path, `send` transmits the
whole datagram on a connected socket, and `close` succeeds on an open descriptor. -/
def Host.kernel (h : Host) : Kernel := fun hist call =>
  match call with
  | .socket domain ty protocol =>
    if domain = AF_UNIX ∧ ty = SOCK_DGRAM ∧ protocol = 0 then
      match (List.range h.nofile).find? (fun (k : Nat) => !h.inUse hist (k : Int)) with
      | some k => if (k : Int) ≤ INT_MAX then (k : Int) else -1
      | none => -1
    else -1
  | .connect sockfd addr _ =>
    match fdState hist sockfd with
    | some (.sock _) =>
      if addr.sun_family = AF_UNIX ∧ addr.sun_path ∈ h.listeners then 0 else -1
    | _ => -1
  | .send sockfd buf len _ =>
    match fdState hist sockfd with
    | some (.sock (some _)) => if len ≤ buf.length ∧ len ≤ SNDBUF then (len : Int) else -1
    | _ => -1
  | .close fd => if h.inUse hist fd then 0 else -1

/-- A process started from a shell: standard input, output and error are open, and a
listener is bound to `/tmp/test.sock`. -/
def shellHost : Host :=
  { inherited := [0, 1, 2], listeners := ["/tmp/test.sock".data], nofile := 16 }

/-- A process started with its standard streams closed: no descriptor is inherited. -/
def daemonHost : Host :=
  { inherited := [], listeners := ["/tmp/test.sock".data], nofile := 16 }

/-- The world of a process that has issued no system call and written nothing. -/
def World.initial : World :=
  { trace := [], stdout := [] }

/-- A path of 108 characters, one more than `sun_path` holds beside its terminator. -/
def longPath : String :=
  String.mk ('/' :: List.replicate 107 'x')

/-! # Theorems -/


/-! ## Arithmetic of the conversions -/

theorem toInt_eq (x : Int) (h1 : -1 ≤ x) (h2 : x ≤ INT_MAX) : toInt x = x := by
  unfold toInt
  unfold INT_MAX at h2
  omega

theorem size_t_eq (n : Int) (h1 : 0 ≤ n) (h2 : n ≤ INT_MAX) : size_t n = n.toNat := by
  unfold size_t
  unfold INT_MAX at h2
  congr 1
  omega

/-! ## The return-value contract, call by call -/

theorem Posix.socket_ret {os : Kernel} (hos : Posix os) (hist : List Event) (d t p : Int) :
    os hist (.socket d t p) = -1 ∨
      (0 ≤ os hist (.socket d t p) ∧ os hist (.socket d t p) ≤ INT_MAX) := by
  have h := hos hist (.socket d t p)
  simpa [legal] using h

theorem Posix.connect_ret {os : Kernel} (hos : Posix os) (hist : List Event) (fd : Int)
    (addr : sockaddr_un) (len : Nat) :
    os hist (.connect fd addr len) = 0 ∨ os hist (.connect fd addr len) = -1 := by
  have h := hos hist (.connect fd addr len)
  simpa [legal] using h

theorem Posix.send_ret {os : Kernel} (hos : Posix os) (hist : List Event) (fd : Int)
    (buf : List Char) (len : Nat) (flags : Int) :
    os hist (.send fd buf len flags) = -1 ∨
      (0 ≤ os hist (.send fd buf len flags) ∧ os hist (.send fd buf len flags) ≤ INT_MAX) := by
  have h := hos hist (.send fd buf len flags)
  simpa [legal] using h

theorem Posix.close_ret {os : Kernel} (hos : Posix os) (hist : List Event) (fd : Int) :
    os hist (.close fd) = 0 ∨ os hist (.close fd) = -1 := by
  have h := hos hist (.close fd)
  simpa [legal] using h

theorem Posix.toInt_send {os : Kernel} (hos : Posix os) (hist : List Event) (fd : Int)
    (buf : List Char) (len : Nat) (flags : Int) :
    toInt (os hist (.send fd buf len flags)) = os hist (.send fd buf len flags) := by
  rcases hos.send_ret hist fd buf len flags with h | ⟨h1, h2⟩
  · rw [h]; decide
  · exact toInt_eq _ (by omega) h2

/-! ## The member functions, case by case -/

theorem sendData_sentinel (os : Kernel) (self : UnixDomainSocketClient) (buf : List Char)
    (n : Int) (w : World) (h0 : self.m_fileDescriptor = 0) :
    sendData os self buf n w = .returned (-1) self w := by
  simp [sendData, h0]

theorem sendData_handle (os : Kernel) (self : UnixDomainSocketClient) (buf : List Char)
    (n : Int) (w : World) (h0 : self.m_fileDescriptor ≠ 0) :
    sendData os self buf n w =
      if toInt (os w.trace (sendCall self.m_fileDescriptor buf n)) = -1 then
        .died "[!] sender: send failed"
          { w with trace := w.trace ++ [⟨sendCall self.m_fileDescriptor buf n,
              os w.trace (sendCall self.m_fileDescriptor buf n)⟩] }
      else
        .returned (toInt (os w.trace (sendCall self.m_fileDescriptor buf n))) self
          { w with trace := w.trace ++ [⟨sendCall self.m_fileDescriptor buf n,
              os w.trace (sendCall self.m_fileDescriptor buf n)⟩] } := by
  simp [sendData, h0, World.syscall, die, sendCall]

theorem closeSocket_eq (os : Kernel) (self : UnixDomainSocketClient) (w : World) :
    closeSocket os self w =
      if os w.trace (.close self.m_fileDescriptor) = 0 then
        .returned self.m_fileDescriptor self
          { trace := w.trace ++ [⟨.close self.m_fileDescriptor, 0⟩],
            stdout := w.stdout ++ [closeLine self] }
      else
        .died "[i] close error"
          { trace := w.trace ++
              [⟨.close self.m_fileDescriptor, os w.trace (.close self.m_fileDescriptor)⟩],
            stdout := w.stdout ++ [closeLine self] } := by
  simp only [closeSocket, World.syscall, World.cout, die, closeLine]
  split <;> simp_all

theorem openSocket_eq (os : Kernel) (self : UnixDomainSocketClient) (w : World)
    (hfit : FitsSunPath self.m_socketPath) :
    openSocket os self w =
      if os w.trace socketCall = -1 then
        .died "[!] socket error"
          { trace := w.trace ++ [⟨socketCall, -1⟩], stdout := w.stdout ++ [openLine self] }
      else if os (w.trace ++ [⟨socketCall, os w.trace socketCall⟩])
          (connectCall (os w.trace socketCall) self.m_socketPath) = -1 then
        .died "[!] connect error"
          { trace := w.trace ++ [⟨socketCall, os w.trace socketCall⟩,
              ⟨connectCall (os w.trace socketCall) self.m_socketPath, -1⟩],
            stdout := w.stdout ++ [openLine self] }
      else
        .returned (os w.trace socketCall)
          { self with m_fileDescriptor := os w.trace socketCall }
          { trace := w.trace ++ [⟨socketCall, os w.trace socketCall⟩,
              ⟨connectCall (os w.trace socketCall) self.m_socketPath,
               os (w.trace ++ [⟨socketCall, os w.trace socketCall⟩])
                (connectCall (os w.trace socketCall) self.m_socketPath)⟩],
            stdout := w.stdout ++ [openLine self] } := by
  have hcopy : strcpy SUN_PATH_SIZE (c_str self.m_socketPath) = some (c_str self.m_socketPath) := by
    unfold FitsSunPath at hfit
    simp [strcpy, hfit]
  simp only [openSocket, hcopy, World.syscall, World.cout, die, addressOf, socketCall, connectCall,
    openLine]
  split
  · rename_i h
    simp at h
    simp [h]
  · rename_i h
    simp at h
    simp [h]
    split <;> simp_all

theorem openSocket_overrun (os : Kernel) (self : UnixDomainSocketClient) (w : World)
    (hfit : ¬ FitsSunPath self.m_socketPath) :
    openSocket os self w = .undefined (w.cout (openLine self)) := by
  have hcopy : strcpy SUN_PATH_SIZE (c_str self.m_socketPath) = none := by
    unfold FitsSunPath at hfit
    simp [strcpy, hfit]
  simp [openSocket, hcopy, openLine]

theorem dtor_eq (os : Kernel) (self : UnixDomainSocketClient) (w : World) :
    UnixDomainSocketClient.dtor os self w =
      if os w.trace (.close self.m_fileDescriptor) = 0 then
        .returned () self
          { trace := w.trace ++ [⟨.close self.m_fileDescriptor, 0⟩],
            stdout := w.stdout ++ [closeLine self] }
      else
        .died "[i] close error"
          { trace := w.trace ++
              [⟨.close self.m_fileDescriptor, os w.trace (.close self.m_fileDescriptor)⟩],
            stdout := w.stdout ++ [closeLine self] } := by
  rw [UnixDomainSocketClient.dtor, closeSocket_eq]
  by_cases h : os w.trace (.close self.m_fileDescriptor) = 0 <;> simp [h]

theorem c_str_of_nulFree (socketPath : String) (h : NulFree socketPath) :
    c_str socketPath = socketPath.data := by
  unfold c_str
  rw [List.takeWhile_eq_self_iff]
  intro ch hch
  have hne : ch ≠ Char.ofNat 0 := fun heq => h (heq ▸ hch)
  simpa using hne

/-! ## What the trace says after one more call -/

theorem fdState_append (trace : List Event) (e : Event) (fd : Int) :
    fdState (trace ++ [e]) fd = fdStep fd (fdState trace fd) e := by
  simp [fdState, List.foldl_append]

theorem fdState_send (trace : List Event) (fd sockfd : Int) (buf : List Char) (len : Nat)
    (flags r : Int) :
    fdState (trace ++ [⟨.send sockfd buf len flags, r⟩]) fd = fdState trace fd := by
  rw [fdState_append]; rfl

theorem fdState_close (trace : List Event) (fd : Int) :
    fdState (trace ++ [⟨.close fd, 0⟩]) fd = some .closed := by
  rw [fdState_append]; simp [fdStep]

theorem fdState_open (trace : List Event) (fd : Int) (addr : sockaddr_un) (len : Nat)
    (d t p : Int) (hfd : 0 ≤ fd) :
    fdState (trace ++ [⟨.socket d t p, fd⟩, ⟨.connect fd addr len, 0⟩]) fd =
      some (.sock (some addr)) := by
  have h2 : trace ++ [⟨.socket d t p, fd⟩, ⟨.connect fd addr len, 0⟩] =
      (trace ++ [(⟨.socket d t p, fd⟩ : Event)]) ++ [⟨.connect fd addr len, 0⟩] := by simp
  rw [h2, fdState_append, fdState_append]
  simp [fdStep, hfd]

/-! ## The reference kernel keeps the contracts -/

theorem legal_socket_fail (d t p : Int) : legal (.socket d t p) (-1) = true := by
  simp [legal]

theorem legal_send_fail (fd : Int) (buf : List Char) (len : Nat) (flags : Int) :
    legal (.send fd buf len flags) (-1) = true := by
  simp [legal]

theorem legal_connect_ok (fd : Int) (addr : sockaddr_un) (len : Nat) (r : Int)
    (h : r = 0 ∨ r = -1) : legal (.connect fd addr len) r = true := by
  simpa [legal] using h

theorem Host.kernel_posix (h : Host) : Posix h.kernel := by
  intro hist call
  cases call with
  | socket d t p =>
    by_cases hargs : d = AF_UNIX ∧ t = SOCK_DGRAM ∧ p = 0
    · cases hfind : (List.range h.nofile).find? (fun (k : Nat) => !h.inUse hist (k : Int)) with
      | none =>
        have hr : h.kernel hist (.socket d t p) = -1 := by simp [Host.kernel, hargs, hfind]
        rw [hr]; exact legal_socket_fail d t p
      | some k =>
        by_cases hk : (k : Int) ≤ INT_MAX
        · have hr : h.kernel hist (.socket d t p) = (k : Int) := by
            simp [Host.kernel, hargs, hfind, hk]
          rw [hr]
          simp [legal, hk]
        · have hr : h.kernel hist (.socket d t p) = -1 := by
            simp [Host.kernel, hargs, hfind, hk]
          rw [hr]; exact legal_socket_fail d t p
    · have hr : h.kernel hist (.socket d t p) = -1 := by simp [Host.kernel, hargs]
      rw [hr]; exact legal_socket_fail d t p
  | connect fd addr len =>
    apply legal_connect_ok
    simp only [Host.kernel]
    split
    · split
      · exact Or.inl rfl
      · exact Or.inr rfl
    · exact Or.inr rfl
  | send fd buf len flags =>
    by_cases hlen : len ≤ buf.length ∧ len ≤ SNDBUF
    · have h2 : (len : Int) ≤ INT_MAX := by
        have h3 : len ≤ SNDBUF := hlen.2
        unfold SNDBUF at h3
        unfold INT_MAX
        omega
      cases hst : fdState hist fd with
      | none =>
        have hr : h.kernel hist (.send fd buf len flags) = -1 := by simp [Host.kernel, hst]
        rw [hr]; exact legal_send_fail fd buf len flags
      | some st =>
        cases st with
        | closed =>
          have hr : h.kernel hist (.send fd buf len flags) = -1 := by simp [Host.kernel, hst]
          rw [hr]; exact legal_send_fail fd buf len flags
        | sock peer =>
          cases peer with
          | none =>
            have hr : h.kernel hist (.send fd buf len flags) = -1 := by
              simp [Host.kernel, hst]
            rw [hr]; exact legal_send_fail fd buf len flags
          | some addr =>
            have hr : h.kernel hist (.send fd buf len flags) = (len : Int) := by
              simp [Host.kernel, hst, hlen]
            rw [hr]
            simp [legal, h2]
    · have hr : h.kernel hist (.send fd buf len flags) = -1 := by
        simp only [Host.kernel]
        split
        · rw [if_neg hlen]
        · rfl
      rw [hr]; exact legal_send_fail fd buf len flags
  | close fd =>
    simp only [Host.kernel, legal]
    split <;> simp

theorem Host.kernel_rejectsClosed (h : Host) : RejectsClosed h.kernel := by
  intro hist fd buf len flags hclosed
  simp [Host.kernel, hclosed]

/-! ## Calls that leave the object alone -/

theorem issued_append {α : Type} (o : Outcome α) (w : World) (events : List Event)
    (h : o.world.trace = w.trace ++ events) : o.issued w = events := by
  simp [Outcome.issued, h]

theorem sendData_returned (os : Kernel) (self self1 : UnixDomainSocketClient)
    (buf : List Char) (n v : Int) (w w1 : World)
    (h : sendData os self buf n w = .returned v self1 w1) :
    self1 = self ∧ w1.stdout = w.stdout ∧
      ((self.m_fileDescriptor = 0 ∧ v = -1 ∧ w1 = w) ∨
        (self.m_fileDescriptor ≠ 0 ∧
          v = toInt (os w.trace (sendCall self.m_fileDescriptor buf n)) ∧ v ≠ -1 ∧
          w1.trace = w.trace ++ [⟨sendCall self.m_fileDescriptor buf n,
            os w.trace (sendCall self.m_fileDescriptor buf n)⟩])) := by
  by_cases h0 : self.m_fileDescriptor = 0
  · rw [sendData_sentinel os self buf n w h0] at h
    injection h with hv hs hw
    subst hv hs hw
    simp [h0]
  · rw [sendData_handle os self buf n w h0] at h
    split at h
    · cases h
    · rename_i hne
      injection h with hv hs hw
      subst hv hs hw
      simp [h0, hne]

theorem closeSocket_returned (os : Kernel) (self self1 : UnixDomainSocketClient) (v : Int)
    (w w1 : World) (h : closeSocket os self w = .returned v self1 w1) :
    self1 = self ∧ v = self.m_fileDescriptor ∧
      os w.trace (.close self.m_fileDescriptor) = 0 ∧
      w1 = { trace := w.trace ++ [⟨.close self.m_fileDescriptor, 0⟩],
             stdout := w.stdout ++ [closeLine self] } := by
  rw [closeSocket_eq] at h
  split at h
  · rename_i h0
    injection h with hv hs hw
    subst hv hs hw
    simp [h0]
  · cases h

theorem openSocket_returned (os : Kernel) (self self1 : UnixDomainSocketClient) (v : Int)
    (w w1 : World) (h : openSocket os self w = .returned v self1 w1) :
    FitsSunPath self.m_socketPath ∧ v = os w.trace socketCall ∧ v ≠ -1 ∧
      self1 = { self with m_fileDescriptor := v } ∧
      os (w.trace ++ [⟨socketCall, v⟩]) (connectCall v self.m_socketPath) ≠ -1 ∧
      w1 = { trace := w.trace ++ [⟨socketCall, v⟩,
               ⟨connectCall v self.m_socketPath,
                os (w.trace ++ [⟨socketCall, v⟩]) (connectCall v self.m_socketPath)⟩],
             stdout := w.stdout ++ [openLine self] } := by
  by_cases hfit : FitsSunPath self.m_socketPath
  · rw [openSocket_eq os self w hfit] at h
    split at h
    · cases h
    · rename_i h1
      split at h
      · cases h
      · rename_i h2
        injection h with hv hs hw
        subst hv hs hw
        exact ⟨hfit, rfl, h1, rfl, h2, rfl⟩
  · rw [openSocket_overrun os self w hfit] at h
    cases h

theorem exec_path (os : Kernel) (op : Op) (self self1 : UnixDomainSocketClient) (v : Int)
    (w w1 : World) (h : exec os op self w = .returned v self1 w1) :
    self1.m_socketPath = self.m_socketPath := by
  cases op with
  | openSocket =>
    have h1 := (openSocket_returned os self self1 v w w1 h).2.2.2.1
    rw [h1]
  | sendData buf n =>
    have h1 := (sendData_returned os self self1 buf n v w w1 h).1
    rw [h1]
  | closeSocket =>
    have h1 := (closeSocket_returned os self self1 v w w1 h).1
    rw [h1]

theorem exec_not_open (os : Kernel) (op : Op) (self self1 : UnixDomainSocketClient) (v : Int)
    (w w1 : World) (hop : op.isOpen = false) (h : exec os op self w = .returned v self1 w1) :
    self1 = self := by
  cases op with
  | openSocket => simp [Op.isOpen] at hop
  | sendData buf n => exact (sendData_returned os self self1 buf n v w w1 h).1
  | closeSocket => exact (closeSocket_returned os self self1 v w w1 h).1

theorem run_cons (os : Kernel) (op : Op) (rest : List Op) (self self2 : UnixDomainSocketClient)
    (w w2 : World) (h : run os (op :: rest) self w = .returned () self2 w2) :
    ∃ v self1 w1, exec os op self w = .returned v self1 w1 ∧
      run os rest self1 w1 = .returned () self2 w2 := by
  rw [run] at h
  split at h
  · rename_i v self1 w1 hexec
    exact ⟨v, self1, w1, hexec, h⟩
  · cases h
  · cases h

theorem run_not_open (os : Kernel) (ops : List Op) (self self1 : UnixDomainSocketClient)
    (w w1 : World) (hops : ops.any Op.isOpen = false)
    (h : run os ops self w = .returned () self1 w1) : self1 = self := by
  induction ops generalizing self w with
  | nil =>
    rw [run] at h
    injection h with _ hs _
    exact hs.symm
  | cons op rest ih =>
    obtain ⟨v, s, u, hexec, hrest⟩ := run_cons os op rest self self1 w w1 h
    simp only [List.any_cons, Bool.or_eq_false_iff] at hops
    have h1 := exec_not_open os op self s v w u hops.1 hexec
    have h2 := ih s u hops.2 hrest
    rw [h2, h1]

theorem run_path (os : Kernel) (ops : List Op) (self self1 : UnixDomainSocketClient)
    (w w1 : World) (h : run os ops self w = .returned () self1 w1) :
    self1.m_socketPath = self.m_socketPath := by
  induction ops generalizing self w with
  | nil =>
    rw [run] at h
    injection h with _ hs _
    rw [hs]
  | cons op rest ih =>
    obtain ⟨v, s, u, hexec, hrest⟩ := run_cons os op rest self self1 w w1 h
    rw [ih s u hrest, exec_path os op self s v w u hexec]

/-! ## The claims -/

/-- C1: on a client on which `openSocket` has never been called (the client was
constructed and has since seen only calls of `sendData` and `closeSocket` that
returned), the handle is still the sentinel `0` of the constructor, and `sendData`
returns `-1` for every buffer and size, issues no system call (the trace is unchanged),
does not terminate the process, and leaves the handle and the path unchanged. -/
theorem C1_sendData_before_open (os : Kernel) (socketPath : String) (w0 : World)
    (ops : List Op) (self : UnixDomainSocketClient) (w : World)
    (hnever : ops.any Op.isOpen = false)
    (hrun : run os ops (.ctor socketPath) w0 = .returned () self w)
    (dataBuffer : List Char) (dataBufferSize : Int) :
    self.m_fileDescriptor = 0 ∧ self.m_socketPath = socketPath ∧
      sendData os self dataBuffer dataBufferSize w = .returned (-1) self w ∧
      (sendData os self dataBuffer dataBufferSize w).issued w = [] ∧
      (sendData os self dataBuffer dataBufferSize w).isDied = false := by
  have hself := run_not_open os ops _ self w0 w hnever hrun
  have h0 : self.m_fileDescriptor = 0 := by rw [hself]; rfl
  have hsend := sendData_sentinel os self dataBuffer dataBufferSize w h0
  refine ⟨h0, by rw [hself]; rfl, hsend, ?_, ?_⟩
  · rw [hsend]; simp [Outcome.issued, Outcome.world]
  · rw [hsend]; rfl

/-- C1, on the reference kernel: a client constructed for `/tmp/test.sock` on which
`sendData` and `closeSocket` were called, but never `openSocket`. -/
theorem C1_sendData_before_open_witness :
    run shellHost.kernel [.sendData "hello".data 5, .closeSocket]
        (.ctor "/tmp/test.sock") World.initial =
      .returned () ⟨0, "/tmp/test.sock"⟩
        ⟨[⟨.close 0, 0⟩], ["[i] close UNIX domain socket /tmp/test.sock..."]⟩ ∧
    sendData shellHost.kernel ⟨0, "/tmp/test.sock"⟩ "hello".data 5
        ⟨[⟨.close 0, 0⟩], ["[i] close UNIX domain socket /tmp/test.sock..."]⟩ =
      .returned (-1) ⟨0, "/tmp/test.sock"⟩
        ⟨[⟨.close 0, 0⟩], ["[i] close UNIX domain socket /tmp/test.sock..."]⟩ :=
  ⟨by decide,
   (C1_sendData_before_open shellHost.kernel "/tmp/test.sock" World.initial
      [.sendData "hello".data 5, .closeSocket] ⟨0, "/tmp/test.sock"⟩
      ⟨[⟨.close 0, 0⟩], ["[i] close UNIX domain socket /tmp/test.sock..."]⟩
      (by decide) (by decide) "hello".data 5).2.2.1⟩

/-- C8: on a kernel that keeps the return-value contract, a negative return value of
`sendData` signals only the not-open case. If `sendData` returns a negative value, the
handle was the sentinel `0` and no system call was issued; and whenever the handle is
not the sentinel and `sendData` returns, the value is the byte count the operating system
reported for the one `send` call, it is non-negative, and it is not `-1`. -/
theorem C8_negative_return_means_unopened (os : Kernel) (hos : Posix os)
    (self : UnixDomainSocketClient) (dataBuffer : List Char) (dataBufferSize : Int) (w : World)
    (v : Int) (self1 : UnixDomainSocketClient) (w1 : World)
    (hret : sendData os self dataBuffer dataBufferSize w = .returned v self1 w1) :
    (v < 0 → self.m_fileDescriptor = 0 ∧ w1 = w ∧
        (sendData os self dataBuffer dataBufferSize w).issued w = []) ∧
      (self.m_fileDescriptor ≠ 0 →
        v = os w.trace (sendCall self.m_fileDescriptor dataBuffer dataBufferSize) ∧ 0 ≤ v ∧
          (sendData os self dataBuffer dataBufferSize w).issued w =
            [⟨sendCall self.m_fileDescriptor dataBuffer dataBufferSize, v⟩]) := by
  obtain ⟨_, _, hcase⟩ := sendData_returned os self self1 dataBuffer dataBufferSize v w w1 hret
  have hto := hos.toInt_send w.trace self.m_fileDescriptor dataBuffer (size_t dataBufferSize) 0
  have hrange := hos.send_ret w.trace self.m_fileDescriptor dataBuffer (size_t dataBufferSize) 0
  rcases hcase with ⟨h0, _, hw⟩ | ⟨h0, hv, hne, htrace⟩
  · refine ⟨fun _ => ⟨h0, hw, ?_⟩, fun hn => absurd h0 hn⟩
    rw [hret, hw]
    simp [Outcome.issued, Outcome.world]
  · have hv2 : v = os w.trace (sendCall self.m_fileDescriptor dataBuffer dataBufferSize) := by
      rw [hv]; exact hto
    have hnonneg : 0 ≤ v := by
      rcases hrange with hfail | ⟨hlo, _⟩
      · exact absurd (hv2.trans hfail) hne
      · rw [hv2]; exact hlo
    refine ⟨fun hneg => absurd hnonneg (not_le.mpr hneg), fun _ => ⟨hv2, hnonneg, ?_⟩⟩
    apply issued_append
    rw [hret, hv2]
    exact htrace

/-- C8, on the reference kernel: after `openSocket` returned handle `3`, `sendData`
returns the `5` the kernel reports for the datagram `hello`. -/
theorem C8_negative_return_means_unopened_witness :
    Posix shellHost.kernel ∧
    sendData shellHost.kernel ⟨3, "/tmp/test.sock"⟩ "hello".data 5
        ⟨[⟨socketCall, 3⟩, ⟨connectCall 3 "/tmp/test.sock", 0⟩], []⟩ =
      .returned 5 ⟨3, "/tmp/test.sock"⟩
        ⟨[⟨socketCall, 3⟩, ⟨connectCall 3 "/tmp/test.sock", 0⟩,
          ⟨sendCall 3 "hello".data 5, 5⟩], []⟩ ∧
    (5 : Int) = shellHost.kernel [⟨socketCall, 3⟩, ⟨connectCall 3 "/tmp/test.sock", 0⟩]
        (sendCall 3 "hello".data 5) ∧
    (0 : Int) ≤ 5 :=
  ⟨shellHost.kernel_posix, by decide,
   ((C8_negative_return_means_unopened shellHost.kernel shellHost.kernel_posix
      ⟨3, "/tmp/test.sock"⟩ "hello".data 5
      ⟨[⟨socketCall, 3⟩, ⟨connectCall 3 "/tmp/test.sock", 0⟩], []⟩ 5 ⟨3, "/tmp/test.sock"⟩
      ⟨[⟨socketCall, 3⟩, ⟨connectCall 3 "/tmp/test.sock", 0⟩,
        ⟨sendCall 3 "hello".data 5, 5⟩], []⟩ (by decide)).2 (by decide)).1,
   ((C8_negative_return_means_unopened shellHost.kernel shellHost.kernel_posix
      ⟨3, "/tmp/test.sock"⟩ "hello".data 5
      ⟨[⟨socketCall, 3⟩, ⟨connectCall 3 "/tmp/test.sock", 0⟩], []⟩ 5 ⟨3, "/tmp/test.sock"⟩
      ⟨[⟨socketCall, 3⟩, ⟨connectCall 3 "/tmp/test.sock", 0⟩,
        ⟨sendCall 3 "hello".data 5, 5⟩], []⟩ (by decide)).2 (by decide)).2.1⟩

theorem failFast_died {α : Type} (msg : String) (w w1 : World) (events : List Event)
    (htrace : w1.trace = w.trace ++ events) (hfail : ∃ e ∈ events, e.failed = true) :
    FailFast (Outcome.died msg w1 : Outcome α) w := by
  have hi : (Outcome.died msg w1 : Outcome α).issued w = events := issued_append _ w events htrace
  refine ⟨⟨fun _ => hi ▸ hfail, fun _ => rfl⟩, ⟨fun h => Bool.noConfusion h, fun h => ?_⟩⟩
  rw [hi] at h
  obtain ⟨e, he, hf⟩ := hfail
  rw [h e he] at hf
  cases hf

theorem failFast_returned {α : Type} (v : α) (self : UnixDomainSocketClient) (w w1 : World)
    (events : List Event) (htrace : w1.trace = w.trace ++ events)
    (hok : ∀ e ∈ events, e.failed = false) :
    FailFast (Outcome.returned v self w1) w := by
  have hi : (Outcome.returned v self w1).issued w = events := issued_append _ w events htrace
  refine ⟨⟨fun h => Bool.noConfusion h, fun h => ?_⟩, ⟨fun _ => hi ▸ hok, fun _ => rfl⟩⟩
  rw [hi] at h
  obtain ⟨e, he, hf⟩ := h
  rw [hok e he] at hf
  cases hf

/-- The fatal-error policy where the code keeps it: on a kernel that keeps the
return-value contract, `openSocket` on a path that fits `sun_path`, `sendData` and
`closeSocket` end in `die`, returning nothing, exactly when one of the system calls they
issued failed, and return normally exactly when none of them failed. -/
theorem operations_failFast (os : Kernel) (hos : Posix os) (self : UnixDomainSocketClient)
    (w : World) (dataBuffer : List Char) (dataBufferSize : Int) :
    (FitsSunPath self.m_socketPath → FailFast (openSocket os self w) w) ∧
      FailFast (sendData os self dataBuffer dataBufferSize w) w ∧
      FailFast (closeSocket os self w) w := by
  refine ⟨fun hfit => ?_, ?_, ?_⟩
  · rw [openSocket_eq os self w hfit]
    split
    · exact failFast_died _ w _ [⟨socketCall, -1⟩] rfl ⟨_, List.mem_singleton_self _, rfl⟩
    · rename_i h1
      split
      · exact failFast_died _ w _ _ rfl
          ⟨⟨connectCall (os w.trace socketCall) self.m_socketPath, -1⟩, by simp,
            by simp [Event.failed]⟩
      · rename_i h2
        apply failFast_returned _ _ w _ _ rfl
        intro e he
        simp only [List.mem_cons, List.mem_singleton, List.not_mem_nil, or_false] at he
        rcases he with he | he
        · rw [he]; simpa [Event.failed] using h1
        · rw [he]; simpa [Event.failed] using h2
  · by_cases h0 : self.m_fileDescriptor = 0
    · rw [sendData_sentinel os self dataBuffer dataBufferSize w h0]
      exact failFast_returned _ _ w w [] (by simp) (by simp)
    · rw [sendData_handle os self dataBuffer dataBufferSize w h0]
      have hto := hos.toInt_send w.trace self.m_fileDescriptor dataBuffer
        (size_t dataBufferSize) 0
      have hto2 : toInt (os w.trace (sendCall self.m_fileDescriptor dataBuffer dataBufferSize)) =
          os w.trace (sendCall self.m_fileDescriptor dataBuffer dataBufferSize) := hto
      rw [hto2]
      split
      · rename_i h1
        exact failFast_died _ w _ _ rfl ⟨_, List.mem_singleton_self _, by simpa [Event.failed] using h1⟩
      · rename_i h1
        apply failFast_returned _ _ w _ _ rfl
        intro e he
        rw [List.mem_singleton] at he
        rw [he]; simpa [Event.failed] using h1
  · rw [closeSocket_eq]
    rcases hos.close_ret w.trace self.m_fileDescriptor with h1 | h1
    · rw [if_pos h1]
      apply failFast_returned _ _ w _ _ rfl
      intro e he
      rw [List.mem_singleton] at he
      rw [he]; rfl
    · have hne : os w.trace (.close self.m_fileDescriptor) ≠ 0 := by rw [h1]; decide
      rw [if_neg hne]
      exact failFast_died _ w _ _ rfl ⟨_, List.mem_singleton_self _, by simpa [Event.failed] using h1⟩

/-- The fatal-error policy on the reference kernel: `openSocket` for a path at which
nothing listens issues `socket`, which succeeds, and `connect`, which fails, and the
call dies. -/
theorem operations_failFast_connect_error :
    Posix shellHost.kernel ∧ FitsSunPath "/tmp/none.sock" ∧
    openSocket shellHost.kernel ⟨0, "/tmp/none.sock"⟩ World.initial =
      .died "[!] connect error"
        ⟨[⟨socketCall, 3⟩, ⟨connectCall 3 "/tmp/none.sock", -1⟩],
         ["[i] open UNIX domain socket /tmp/none.sock..."]⟩ ∧
    FailFast (openSocket shellHost.kernel ⟨0, "/tmp/none.sock"⟩ World.initial) World.initial :=
  ⟨shellHost.kernel_posix, by decide, by decide,
   (operations_failFast shellHost.kernel shellHost.kernel_posix ⟨0, "/tmp/none.sock"⟩
      World.initial "hello".data 5).1 (by decide)⟩

/-- C3, the code at the failing input: a client constructed with a path of 108
characters. `openSocket` copies the path into the 108-byte array `sun_path` with an
unbounded `strcpy`, so the terminator is written past the end of the array before any
system call is issued. No system call was issued and none failed, yet the call neither
returns normally nor ends in `die`: the fatal-error policy does not hold for it. The same
happens on every kernel and for every path that does not fit `sun_path`. -/
theorem C3_openSocket_overrun_without_os_failure :
    longPath.length = 108 ∧
    openSocket shellHost.kernel (.ctor longPath) World.initial =
      .undefined ⟨[], ["[i] open UNIX domain socket " ++ longPath ++ "..."]⟩ ∧
    (openSocket shellHost.kernel (.ctor longPath) World.initial).issued World.initial = [] ∧
    (openSocket shellHost.kernel (.ctor longPath) World.initial).isReturned = false ∧
    (openSocket shellHost.kernel (.ctor longPath) World.initial).isDied = false ∧
    ¬ FailFast (openSocket shellHost.kernel (.ctor longPath) World.initial) World.initial ∧
    ∀ (os : Kernel) (self : UnixDomainSocketClient) (w : World),
      ¬ FitsSunPath self.m_socketPath →
        openSocket os self w = .undefined (w.cout (openLine self)) ∧
          (openSocket os self w).issued w = [] := by
  refine ⟨by decide, by decide, by decide, by decide, by decide, by decide,
    fun os self w hfit => ?_⟩
  rw [openSocket_overrun os self w hfit]
  exact ⟨rfl, by simp [Outcome.issued, Outcome.world, World.cout]⟩

/-- C4, where the claim fails: the path `/tmp/test.sock`, a NUL character, `x`. Both
system calls succeed and `openSocket` returns, but `strcpy` stops at the NUL character:
the address handed to `connect` has the path `/tmp/test.sock`, not the path of the
client. -/
theorem C4_counterexample_embedded_nul :
    openSocket shellHost.kernel (.ctor "/tmp/test.sock\x00x") World.initial =
      .returned 3 ⟨3, "/tmp/test.sock\x00x"⟩
        ⟨[⟨.socket AF_UNIX SOCK_DGRAM 0, 3⟩,
          ⟨.connect 3 ⟨AF_UNIX, "/tmp/test.sock".data⟩ SOCKADDR_UN_SIZE, 0⟩],
         ["[i] open UNIX domain socket /tmp/test.sock\x00x..."]⟩ ∧
    "/tmp/test.sock".data ≠ "/tmp/test.sock\x00x".data := by
  decide

/-- C4, amended: for every client whose path `p` has no NUL character and fits
`sun_path` (fewer than 108 characters), `openSocket` first requests an `AF_UNIX`,
`SOCK_DGRAM` socket. When that call and the `connect` call both succeed, `openSocket`
has issued exactly these two calls in this order, the `connect` on the descriptor the
`socket` call returned and to the address with family `AF_UNIX` and path `p`; it returns
that descriptor, and the handle field equals the returned value. When the `socket` call
fails, it is the only call issued: `connect` is not attempted, and the call dies. -/
theorem C4_openSocket_socket_then_connect (os : Kernel) (self : UnixDomainSocketClient)
    (w : World) (hnul : NulFree self.m_socketPath) (hfit : FitsSunPath self.m_socketPath) :
    let fd := os w.trace (.socket AF_UNIX SOCK_DGRAM 0)
    let addr : sockaddr_un := { sun_family := AF_UNIX, sun_path := self.m_socketPath.data }
    let rc := os (w.trace ++ [⟨.socket AF_UNIX SOCK_DGRAM 0, fd⟩])
      (.connect fd addr SOCKADDR_UN_SIZE)
    (fd ≠ -1 → rc ≠ -1 →
        openSocket os self w =
          .returned fd { m_fileDescriptor := fd, m_socketPath := self.m_socketPath }
            { trace := w.trace ++ [⟨.socket AF_UNIX SOCK_DGRAM 0, fd⟩,
                ⟨.connect fd addr SOCKADDR_UN_SIZE, rc⟩],
              stdout := w.stdout ++ [openLine self] }) ∧
      (fd = -1 →
        (openSocket os self w).issued w = [⟨.socket AF_UNIX SOCK_DGRAM 0, -1⟩] ∧
          (openSocket os self w).isDied = true) := by
  intro fd addr rc
  have haddr : addressOf self.m_socketPath = addr := by
    simp only [addressOf, c_str_of_nulFree _ hnul, addr]
  have hopen := openSocket_eq os self w hfit
  simp only [socketCall, connectCall, haddr] at hopen
  refine ⟨fun hfd hrc => ?_, fun hfd => ?_⟩
  · rw [hopen, if_neg hfd, if_neg hrc]
  · rw [hopen, if_pos hfd]
    exact ⟨issued_append _ w _ rfl, rfl⟩

/-- C4, amended, on the reference kernel: `openSocket` for `/tmp/test.sock`. -/
theorem C4_openSocket_socket_then_connect_witness :
    NulFree "/tmp/test.sock" ∧ FitsSunPath "/tmp/test.sock" ∧
    openSocket shellHost.kernel ⟨0, "/tmp/test.sock"⟩ World.initial =
      .returned 3 ⟨3, "/tmp/test.sock"⟩
        ⟨[⟨.socket AF_UNIX SOCK_DGRAM 0, 3⟩,
          ⟨.connect 3 ⟨AF_UNIX, "/tmp/test.sock".data⟩ SOCKADDR_UN_SIZE, 0⟩],
         ["[i] open UNIX domain socket /tmp/test.sock..."]⟩ :=
  ⟨by decide, by decide,
   (C4_openSocket_socket_then_connect shellHost.kernel ⟨0, "/tmp/test.sock"⟩ World.initial
      (by decide) (by decide)).1 (by decide) (by decide)⟩

/-- C2, where the claim fails: in a process whose standard streams are closed the kernel
hands out descriptor `0`. `openSocket` succeeds and returns `0`; `sendData` then takes
the sentinel for "not open", issues no `send` call and returns `-1` instead of `5`. -/
theorem C2_counterexample_descriptor_zero :
    openSocket daemonHost.kernel (.ctor "/tmp/test.sock") World.initial =
      .returned 0 ⟨0, "/tmp/test.sock"⟩
        ⟨[⟨socketCall, 0⟩, ⟨connectCall 0 "/tmp/test.sock", 0⟩],
         ["[i] open UNIX domain socket /tmp/test.sock..."]⟩ ∧
    sendData daemonHost.kernel ⟨0, "/tmp/test.sock"⟩ "hello".data 5
        ⟨[⟨socketCall, 0⟩, ⟨connectCall 0 "/tmp/test.sock", 0⟩],
         ["[i] open UNIX domain socket /tmp/test.sock..."]⟩ =
      .returned (-1) ⟨0, "/tmp/test.sock"⟩
        ⟨[⟨socketCall, 0⟩, ⟨connectCall 0 "/tmp/test.sock", 0⟩],
         ["[i] open UNIX domain socket /tmp/test.sock..."]⟩ := by
  decide

/-- C2, amended: on a kernel that keeps the return-value contract, for every path,
buffer `buf` and size `n` with `0 < n ≤ maxDatagram`: after `openSocket` succeeded with
a handle `h` other than `0`, `sendData(buf, n)` issues exactly one system call, a `send`
on `h` carrying `buf` with length `n`; unless that call fails (then the process dies),
`sendData` returns the byte count the kernel reports for it, leaving the client as it
was; when the kernel reports `n`, `sendData` returns exactly `n`. -/
theorem C2_send_after_open (os : Kernel) (hos : Posix os)
    (self self1 : UnixDomainSocketClient) (w w1 : World) (h : Int)
    (hopen : openSocket os self w = .returned h self1 w1) (hh : h ≠ 0)
    (buf : List Char) (n maxDatagram : Int) (hn : 0 < n) (hmax : n ≤ maxDatagram)
    (hint : maxDatagram ≤ INT_MAX) :
    let r := os w1.trace (.send h buf n.toNat 0)
    (sendData os self1 buf n w1).issued w1 = [⟨.send h buf n.toNat 0, r⟩] ∧
      (r ≠ -1 →
        sendData os self1 buf n w1 =
          .returned r self1 { w1 with trace := w1.trace ++ [⟨.send h buf n.toNat 0, r⟩] }) ∧
      (r = n →
        sendData os self1 buf n w1 =
          .returned n self1 { w1 with trace := w1.trace ++ [⟨.send h buf n.toNat 0, n⟩] }) ∧
      (r = -1 → (sendData os self1 buf n w1).isDied = true) := by
  intro r
  have hself1 : self1.m_fileDescriptor = h := by
    rw [(openSocket_returned os self self1 h w w1 hopen).2.2.2.1]
  have h0 : self1.m_fileDescriptor ≠ 0 := by rw [hself1]; exact hh
  have hsize : size_t n = n.toNat := size_t_eq n (le_of_lt hn) (le_trans hmax hint)
  have hsend := sendData_handle os self1 buf n w1 h0
  have hto := hos.toInt_send w1.trace h buf n.toNat 0
  simp only [sendCall, hself1, hsize] at hsend
  rw [hto] at hsend
  have hne : r ≠ -1 → sendData os self1 buf n w1 =
      .returned r self1 { w1 with trace := w1.trace ++ [⟨.send h buf n.toNat 0, r⟩] } := by
    intro hr
    rw [hsend, if_neg hr]
  refine ⟨?_, hne, fun hrn => ?_, fun hr => ?_⟩
  · apply issued_append
    rw [hsend]
    split <;> rfl
  · have hr : r ≠ -1 := by rw [hrn]; omega
    have := hne hr
    rw [hrn] at this
    exact this
  · rw [hsend, if_pos hr]
    rfl

/-- C2, amended, on the reference kernel: `openSocket` returns `3`, and `sendData` of
the five characters of `hello` returns `5`. -/
theorem C2_send_after_open_witness :
    Posix shellHost.kernel ∧
    openSocket shellHost.kernel ⟨0, "/tmp/test.sock"⟩ World.initial =
      .returned 3 ⟨3, "/tmp/test.sock"⟩
        ⟨[⟨socketCall, 3⟩, ⟨connectCall 3 "/tmp/test.sock", 0⟩],
         ["[i] open UNIX domain socket /tmp/test.sock..."]⟩ ∧
    sendData shellHost.kernel ⟨3, "/tmp/test.sock"⟩ "hello".data 5
        ⟨[⟨socketCall, 3⟩, ⟨connectCall 3 "/tmp/test.sock", 0⟩],
         ["[i] open UNIX domain socket /tmp/test.sock..."]⟩ =
      .returned 5 ⟨3, "/tmp/test.sock"⟩
        ⟨[⟨socketCall, 3⟩, ⟨connectCall 3 "/tmp/test.sock", 0⟩] ++
            [⟨.send 3 "hello".data 5 0, 5⟩],
         ["[i] open UNIX domain socket /tmp/test.sock..."]⟩ :=
  ⟨shellHost.kernel_posix, by decide,
   (C2_send_after_open shellHost.kernel shellHost.kernel_posix ⟨0, "/tmp/test.sock"⟩
      ⟨3, "/tmp/test.sock"⟩ World.initial
      ⟨[⟨socketCall, 3⟩, ⟨connectCall 3 "/tmp/test.sock", 0⟩],
       ["[i] open UNIX domain socket /tmp/test.sock..."]⟩ 3 (by decide) (by decide)
      "hello".data 5 65507 (by decide) (by decide) (by decide)).2.2.1 (by decide)⟩

/-- C10, where the claim fails: in a process whose standard streams are closed,
`openSocket` completes successfully with descriptor `0`, and the `sendData` that follows
takes the usage-error path all the same: it returns `-1` and issues no system call. -/
theorem C10_counterexample_usage_error_after_open :
    run daemonHost.kernel [.openSocket] (.ctor "/tmp/test.sock") World.initial =
      .returned () ⟨0, "/tmp/test.sock"⟩
        ⟨[⟨socketCall, 0⟩, ⟨connectCall 0 "/tmp/test.sock", 0⟩],
         ["[i] open UNIX domain socket /tmp/test.sock..."]⟩ ∧
    (sendData daemonHost.kernel ⟨0, "/tmp/test.sock"⟩ "hello".data 5
        ⟨[⟨socketCall, 0⟩, ⟨connectCall 0 "/tmp/test.sock", 0⟩],
         ["[i] open UNIX domain socket /tmp/test.sock..."]⟩).issued
        ⟨[⟨socketCall, 0⟩, ⟨connectCall 0 "/tmp/test.sock", 0⟩],
         ["[i] open UNIX domain socket /tmp/test.sock..."]⟩ = [] ∧
    sendData daemonHost.kernel ⟨0, "/tmp/test.sock"⟩ "hello".data 5
        ⟨[⟨socketCall, 0⟩, ⟨connectCall 0 "/tmp/test.sock", 0⟩],
         ["[i] open UNIX domain socket /tmp/test.sock..."]⟩ =
      .returned (-1) ⟨0, "/tmp/test.sock"⟩
        ⟨[⟨socketCall, 0⟩, ⟨connectCall 0 "/tmp/test.sock", 0⟩],
         ["[i] open UNIX domain socket /tmp/test.sock..."]⟩ := by
  decide

theorem sendData_usage_error_iff (os : Kernel) (self : UnixDomainSocketClient)
    (buf : List Char) (n : Int) (w : World) :
    sendData os self buf n w = .returned (-1) self w ↔ self.m_fileDescriptor = 0 := by
  constructor
  · intro h
    obtain ⟨_, _, hcase⟩ := sendData_returned os self self buf n (-1) w w h
    rcases hcase with ⟨h0, _, _⟩ | ⟨_, _, hne, _⟩
    · exact h0
    · exact absurd rfl hne
  · exact sendData_sentinel os self buf n w

/-- C10, amended: the sentinel check of `sendData` is the test "is the handle field `0`":
`sendData` takes the usage-error path (it returns `-1` and leaves the trace as it was)
if and only if the handle field is `0`. That is the case on every client on which
`openSocket` has not yet completed; after a successful `openSocket`, and until the next
one, it is the case exactly when the descriptor the kernel assigned is `0`. -/
theorem C10_usage_error_iff_handle_zero (os : Kernel) (buf : List Char) (n : Int) :
    (∀ (self : UnixDomainSocketClient) (w : World),
        sendData os self buf n w = .returned (-1) self w ↔ self.m_fileDescriptor = 0) ∧
      (∀ (socketPath : String) (w0 : World) (ops : List Op) (s : UnixDomainSocketClient)
          (u : World), ops.any Op.isOpen = false →
          run os ops (.ctor socketPath) w0 = .returned () s u →
          sendData os s buf n u = .returned (-1) s u) ∧
      (∀ (self self1 s : UnixDomainSocketClient) (w w1 u : World) (h : Int) (ops : List Op),
          openSocket os self w = .returned h self1 w1 → ops.any Op.isOpen = false →
          run os ops self1 w1 = .returned () s u →
          (sendData os s buf n u = .returned (-1) s u ↔ h = 0)) := by
  refine ⟨fun self w => sendData_usage_error_iff os self buf n w, ?_, ?_⟩
  · intro socketPath w0 ops s u hops hrun
    have hs := run_not_open os ops _ s w0 u hops hrun
    exact sendData_sentinel os s buf n u (by rw [hs]; rfl)
  · intro self self1 s w w1 u h ops hopen hops hrun
    have hs := run_not_open os ops self1 s w1 u hops hrun
    have h1 := (openSocket_returned os self self1 h w w1 hopen).2.2.2.1
    have hfd : s.m_fileDescriptor = h := by rw [hs, h1]
    rw [sendData_usage_error_iff, hfd]

/-- C10, amended, on the reference kernel: after `openSocket` returned `3`, `sendData`
does not take the usage-error path. -/
theorem C10_usage_error_iff_handle_zero_witness :
    openSocket shellHost.kernel ⟨0, "/tmp/test.sock"⟩ World.initial =
      .returned 3 ⟨3, "/tmp/test.sock"⟩
        ⟨[⟨socketCall, 3⟩, ⟨connectCall 3 "/tmp/test.sock", 0⟩],
         ["[i] open UNIX domain socket /tmp/test.sock..."]⟩ ∧
    (sendData shellHost.kernel ⟨3, "/tmp/test.sock"⟩ "hello".data 5
        ⟨[⟨socketCall, 3⟩, ⟨connectCall 3 "/tmp/test.sock", 0⟩],
         ["[i] open UNIX domain socket /tmp/test.sock..."]⟩ =
      .returned (-1) ⟨3, "/tmp/test.sock"⟩
        ⟨[⟨socketCall, 3⟩, ⟨connectCall 3 "/tmp/test.sock", 0⟩],
         ["[i] open UNIX domain socket /tmp/test.sock..."]⟩ ↔ (3 : Int) = 0) :=
  ⟨by decide,
   (C10_usage_error_iff_handle_zero shellHost.kernel "hello".data 5).2.2
      ⟨0, "/tmp/test.sock"⟩ ⟨3, "/tmp/test.sock"⟩ ⟨3, "/tmp/test.sock"⟩ World.initial
      ⟨[⟨socketCall, 3⟩, ⟨connectCall 3 "/tmp/test.sock", 0⟩],
       ["[i] open UNIX domain socket /tmp/test.sock..."]⟩
      ⟨[⟨socketCall, 3⟩, ⟨connectCall 3 "/tmp/test.sock", 0⟩],
       ["[i] open UNIX domain socket /tmp/test.sock..."]⟩ 3 [] (by decide) (by decide)
      (by decide)⟩

/-- C6, the code at the failing input: a client that is constructed and destroyed, with
no call in between. The destructor calls `closeSocket`, which calls `close` on the
sentinel handle `0`. In a process started from a shell that call closes standard input;
in a process whose descriptor `0` is not open the call fails and the destructor
terminates the process through `die`. -/
theorem C6_destructor_unopened_closes_descriptor_zero :
    UnixDomainSocketClient.dtor shellHost.kernel (.ctor "/tmp/test.sock") World.initial =
      .returned () ⟨0, "/tmp/test.sock"⟩
        ⟨[⟨.close 0, 0⟩], ["[i] close UNIX domain socket /tmp/test.sock..."]⟩ ∧
    UnixDomainSocketClient.dtor daemonHost.kernel (.ctor "/tmp/test.sock") World.initial =
      .died "[i] close error"
        ⟨[⟨.close 0, -1⟩], ["[i] close UNIX domain socket /tmp/test.sock..."]⟩ ∧
    ∀ (os : Kernel) (socketPath : String) (w : World),
      (UnixDomainSocketClient.dtor os (.ctor socketPath) w).issued w =
        [⟨.close 0, os w.trace (.close 0)⟩] := by
  refine ⟨by decide, by decide, fun os socketPath w => ?_⟩
  apply issued_append
  rw [dtor_eq]
  by_cases h : os w.trace (.close (UnixDomainSocketClient.ctor socketPath).m_fileDescriptor) = 0
  · rw [if_pos h]
    have h2 : os w.trace (.close 0) = 0 := h
    rw [h2]
    rfl
  · rw [if_neg h]
    rfl

/-! ## Runs of `sendData` calls -/

theorem run_sends (os : Kernel) (ops : List Op) (self s : UnixDomainSocketClient)
    (w u : World) (hops : ∀ op ∈ ops, op.isSend = true)
    (hrun : run os ops self w = .returned () s u) :
    s = self ∧ ∃ events : List Event, u.trace = w.trace ++ events ∧
      (∀ e ∈ events, ∃ buf n, e.call = sendCall self.m_fileDescriptor buf n) ∧
      (self.m_fileDescriptor = 0 → u = w) := by
  induction ops generalizing self w with
  | nil =>
    rw [run] at hrun
    injection hrun with _ hs hw
    exact ⟨hs.symm, [], by simp [hw], by simp, fun _ => hw.symm⟩
  | cons op rest ih =>
    obtain ⟨v, s1, w1, hexec, hrest⟩ := run_cons os op rest self s w u hrun
    have hop := hops op (List.mem_cons_self _ _)
    cases op with
    | openSocket => simp [Op.isSend] at hop
    | closeSocket => simp [Op.isSend] at hop
    | sendData buf n =>
      obtain ⟨hs1, _, hcase⟩ := sendData_returned os self s1 buf n v w w1 hexec
      subst hs1
      obtain ⟨hs, events, htr, hev, hz⟩ :=
        ih s1 w1 (fun o ho => hops o (List.mem_cons_of_mem _ ho)) hrest
      refine ⟨hs, ?_⟩
      rcases hcase with ⟨h0, _, hw⟩ | ⟨h0, _, _, htrace⟩
      · subst hw
        exact ⟨events, htr, hev, hz⟩
      · refine ⟨⟨sendCall s1.m_fileDescriptor buf n,
            os w.trace (sendCall s1.m_fileDescriptor buf n)⟩ :: events, ?_, ?_,
          fun hzero => absurd hzero h0⟩
        · rw [htr, htrace]; simp
        · intro e he
          rcases List.mem_cons.mp he with he | he
          · exact ⟨buf, n, by rw [he]⟩
          · exact hev e he

theorem closeCalls_sends (fd : Int) (events : List Event)
    (h : ∀ e ∈ events, ∃ buf n, e.call = sendCall fd buf n) : closeCalls events = [] := by
  unfold closeCalls
  rw [List.filter_eq_nil_iff]
  intro e he
  obtain ⟨buf, n, hcall⟩ := h e he
  simp [hcall, sendCall]

theorem fdState_sends (fd sockfd : Int) (trace events : List Event)
    (h : ∀ e ∈ events, ∃ buf n, e.call = sendCall sockfd buf n) :
    fdState (trace ++ events) fd = fdState trace fd := by
  induction events using List.reverseRecOn with
  | nil => simp
  | append_singleton init e ih =>
    rw [← List.append_assoc, fdState_append]
    obtain ⟨buf, n, hcall⟩ := h e (by simp)
    have hstep : ∀ st, fdStep fd st e = st := by
      intro st
      simp [fdStep, hcall, sendCall]
    rw [hstep]
    exact ih (fun e2 he2 => h e2 (by simp [he2]))

theorem fdState_stays_closed (fd : Int) (trace later : List Event)
    (hclosed : fdState trace fd = some .closed)
    (hlater : ∀ e ∈ later, e.handsOut fd = false) :
    fdState (trace ++ later) fd = some .closed := by
  induction later using List.reverseRecOn with
  | nil => simpa using hclosed
  | append_singleton init e ih =>
    rw [← List.append_assoc, fdState_append,
      ih (fun e2 he2 => hlater e2 (by simp [he2]))]
    have he := hlater e (by simp)
    cases hcall : e.call with
    | socket d t p =>
      have hne : ¬ e.ret = fd := by simpa [Event.handsOut, hcall] using he
      simp [fdStep, hcall, hne]
    | connect sockfd addr len =>
      simp only [fdStep, hcall]
      split <;> rfl
    | send sockfd buf len flags => simp [fdStep, hcall]
    | close closed =>
      simp only [fdStep, hcall]
      split <;> rfl

/-- C5, where the claim fails, on the reference kernel. First: `openSocket` returns `3`
and `closeSocket` succeeds; the `sendData` that follows is not answered with the
usage-error value: the handle field still holds `3`, a `send` on the released descriptor
is issued, the kernel rejects it, and the process is terminated through `die`. Second:
after `openSocket`, `closeSocket` and a second `openSocket`, by this client or by another
client of the same process, the kernel has handed descriptor `3` out again, and a
`sendData` on the client, a call subsequent to its `closeSocket`, returns the byte count
`5`. -/
theorem C5_counterexample_send_after_close_dies :
    run shellHost.kernel [.openSocket, .closeSocket] (.ctor "/tmp/test.sock") World.initial =
      .returned () ⟨3, "/tmp/test.sock"⟩
        ⟨[⟨socketCall, 3⟩, ⟨connectCall 3 "/tmp/test.sock", 0⟩, ⟨.close 3, 0⟩],
         ["[i] open UNIX domain socket /tmp/test.sock...",
          "[i] close UNIX domain socket /tmp/test.sock..."]⟩ ∧
    sendData shellHost.kernel ⟨3, "/tmp/test.sock"⟩ "hello".data 5
        ⟨[⟨socketCall, 3⟩, ⟨connectCall 3 "/tmp/test.sock", 0⟩, ⟨.close 3, 0⟩],
         ["[i] open UNIX domain socket /tmp/test.sock...",
          "[i] close UNIX domain socket /tmp/test.sock..."]⟩ =
      .died "[!] sender: send failed"
        ⟨[⟨socketCall, 3⟩, ⟨connectCall 3 "/tmp/test.sock", 0⟩, ⟨.close 3, 0⟩,
          ⟨sendCall 3 "hello".data 5, -1⟩],
         ["[i] open UNIX domain socket /tmp/test.sock...",
          "[i] close UNIX domain socket /tmp/test.sock..."]⟩ ∧
    run shellHost.kernel [.openSocket, .closeSocket, .openSocket]
        (.ctor "/tmp/test.sock") World.initial =
      .returned () ⟨3, "/tmp/test.sock"⟩
        ⟨[⟨socketCall, 3⟩, ⟨connectCall 3 "/tmp/test.sock", 0⟩, ⟨.close 3, 0⟩,
          ⟨socketCall, 3⟩, ⟨connectCall 3 "/tmp/test.sock", 0⟩],
         ["[i] open UNIX domain socket /tmp/test.sock...",
          "[i] close UNIX domain socket /tmp/test.sock...",
          "[i] open UNIX domain socket /tmp/test.sock..."]⟩ ∧
    openSocket shellHost.kernel (.ctor "/tmp/test.sock")
        ⟨[⟨socketCall, 3⟩, ⟨connectCall 3 "/tmp/test.sock", 0⟩, ⟨.close 3, 0⟩],
         ["[i] open UNIX domain socket /tmp/test.sock...",
          "[i] close UNIX domain socket /tmp/test.sock..."]⟩ =
      .returned 3 ⟨3, "/tmp/test.sock"⟩
        ⟨[⟨socketCall, 3⟩, ⟨connectCall 3 "/tmp/test.sock", 0⟩, ⟨.close 3, 0⟩,
          ⟨socketCall, 3⟩, ⟨connectCall 3 "/tmp/test.sock", 0⟩],
         ["[i] open UNIX domain socket /tmp/test.sock...",
          "[i] close UNIX domain socket /tmp/test.sock...",
          "[i] open UNIX domain socket /tmp/test.sock..."]⟩ ∧
    sendData shellHost.kernel ⟨3, "/tmp/test.sock"⟩ "hello".data 5
        ⟨[⟨socketCall, 3⟩, ⟨connectCall 3 "/tmp/test.sock", 0⟩, ⟨.close 3, 0⟩,
          ⟨socketCall, 3⟩, ⟨connectCall 3 "/tmp/test.sock", 0⟩],
         ["[i] open UNIX domain socket /tmp/test.sock...",
          "[i] close UNIX domain socket /tmp/test.sock...",
          "[i] open UNIX domain socket /tmp/test.sock..."]⟩ =
      .returned 5 ⟨3, "/tmp/test.sock"⟩
        ⟨[⟨socketCall, 3⟩, ⟨connectCall 3 "/tmp/test.sock", 0⟩, ⟨.close 3, 0⟩,
          ⟨socketCall, 3⟩, ⟨connectCall 3 "/tmp/test.sock", 0⟩,
          ⟨sendCall 3 "hello".data 5, 5⟩],
         ["[i] open UNIX domain socket /tmp/test.sock...",
          "[i] close UNIX domain socket /tmp/test.sock...",
          "[i] open UNIX domain socket /tmp/test.sock..."]⟩ := by
  decide

/-- C5, amended: on a kernel that rejects a `send` on a closed descriptor, take a client
whose `openSocket` succeeded with handle `h` and on which, with no further `openSocket`
in between, `closeSocket` was called at some later point (in any world `wA`) and
succeeded. Then every `sendData` call on the client at any point after that (in any
world `u` whose trace continues the trace at the return of `closeSocket`), made before
the client is opened again and before the operating system hands descriptor `h` out
again (no `socket` call since `closeSocket` has returned `h`, whoever issued it), is
rejected or fails, and does not return a non-negative byte count. When `h` is not `0`,
the call issues a `send` on the released descriptor, the kernel rejects it, and the
process terminates through `die`: the reuse is fatal, it is not reported by a return
value. When `h` is `0`, the call returns `-1` without a system call. -/
theorem C5_send_after_close (os : Kernel) (hbad : RejectsClosed os)
    (self self1 self2 : UnixDomainSocketClient) (w w1 wA wB u : World) (h v : Int)
    (hopen : openSocket os self w = .returned h self1 w1)
    (hclose : closeSocket os self1 wA = .returned v self2 wB)
    (later : List Event) (hlater : ∀ e ∈ later, e.handsOut h = false)
    (hu : u.trace = wB.trace ++ later)
    (buf : List Char) (n : Int) :
    (h ≠ 0 →
        sendData os self2 buf n u =
          .died "[!] sender: send failed"
            { u with trace := u.trace ++ [⟨sendCall h buf n, -1⟩] }) ∧
      (h = 0 → sendData os self2 buf n u = .returned (-1) self2 u) ∧
      (∀ (k : Int) (s3 : UnixDomainSocketClient) (w3 : World),
        sendData os self2 buf n u = .returned k s3 w3 → k = -1) := by
  obtain ⟨_, _, _, hself1, _, _⟩ := openSocket_returned os self self1 h w w1 hopen
  obtain ⟨hself2, _, _, hwB⟩ := closeSocket_returned os self1 self2 v wA wB hclose
  have hfd1 : self1.m_fileDescriptor = h := by rw [hself1]
  have hfd : self2.m_fileDescriptor = h := by rw [hself2, hfd1]
  have hclosedB : fdState wB.trace h = some .closed := by
    rw [hwB, hfd1]
    exact fdState_close wA.trace h
  have hclosed : fdState u.trace h = some .closed := by
    rw [hu]
    exact fdState_stays_closed h wB.trace later hclosedB hlater
  have hdie : h ≠ 0 → sendData os self2 buf n u =
      .died "[!] sender: send failed"
        { u with trace := u.trace ++ [⟨sendCall h buf n, -1⟩] } := by
    intro hh
    have h0 : self2.m_fileDescriptor ≠ 0 := by rw [hfd]; exact hh
    have hr : os u.trace (sendCall h buf n) = -1 := hbad u.trace h buf (size_t n) 0 hclosed
    rw [sendData_handle os self2 buf n u h0, hfd, hr]
    rfl
  have hzero : h = 0 → sendData os self2 buf n u = .returned (-1) self2 u := by
    intro hh
    exact sendData_sentinel os self2 buf n u (by rw [hfd]; exact hh)
  refine ⟨hdie, hzero, ?_⟩
  intro k s3 w3 hret
  by_cases hh : h = 0
  · rw [hzero hh] at hret
    injection hret with hk _ _
    exact hk.symm
  · rw [hdie hh] at hret
    cases hret

/-- C5, amended, on the reference kernel: `openSocket` returns `3`, a `sendData` returns
`5`, `closeSocket` succeeds, a further `close` on the released descriptor is attempted
elsewhere in the process and fails, and the `sendData` after that dies on the rejected
`send`. -/
theorem C5_send_after_close_witness :
    RejectsClosed shellHost.kernel ∧
    openSocket shellHost.kernel ⟨0, "/tmp/test.sock"⟩ World.initial =
      .returned 3 ⟨3, "/tmp/test.sock"⟩
        ⟨[⟨socketCall, 3⟩, ⟨connectCall 3 "/tmp/test.sock", 0⟩],
         ["[i] open UNIX domain socket /tmp/test.sock..."]⟩ ∧
    closeSocket shellHost.kernel ⟨3, "/tmp/test.sock"⟩
        ⟨[⟨socketCall, 3⟩, ⟨connectCall 3 "/tmp/test.sock", 0⟩,
          ⟨sendCall 3 "hello".data 5, 5⟩],
         ["[i] open UNIX domain socket /tmp/test.sock..."]⟩ =
      .returned 3 ⟨3, "/tmp/test.sock"⟩
        ⟨[⟨socketCall, 3⟩, ⟨connectCall 3 "/tmp/test.sock", 0⟩,
          ⟨sendCall 3 "hello".data 5, 5⟩, ⟨.close 3, 0⟩],
         ["[i] open UNIX domain socket /tmp/test.sock...",
          "[i] close UNIX domain socket /tmp/test.sock..."]⟩ ∧
    sendData shellHost.kernel ⟨3, "/tmp/test.sock"⟩ "hello".data 5
        ⟨[⟨socketCall, 3⟩, ⟨connectCall 3 "/tmp/test.sock", 0⟩,
          ⟨sendCall 3 "hello".data 5, 5⟩, ⟨.close 3, 0⟩, ⟨.close 3, -1⟩],
         ["[i] open UNIX domain socket /tmp/test.sock...",
          "[i] close UNIX domain socket /tmp/test.sock..."]⟩ =
      .died "[!] sender: send failed"
        ⟨[⟨socketCall, 3⟩, ⟨connectCall 3 "/tmp/test.sock", 0⟩,
          ⟨sendCall 3 "hello".data 5, 5⟩, ⟨.close 3, 0⟩, ⟨.close 3, -1⟩] ++
            [⟨sendCall 3 "hello".data 5, -1⟩],
         ["[i] open UNIX domain socket /tmp/test.sock...",
          "[i] close UNIX domain socket /tmp/test.sock..."]⟩ :=
  ⟨shellHost.kernel_rejectsClosed, by decide, by decide,
   (C5_send_after_close shellHost.kernel shellHost.kernel_rejectsClosed
      ⟨0, "/tmp/test.sock"⟩ ⟨3, "/tmp/test.sock"⟩ ⟨3, "/tmp/test.sock"⟩
      World.initial
      ⟨[⟨socketCall, 3⟩, ⟨connectCall 3 "/tmp/test.sock", 0⟩],
       ["[i] open UNIX domain socket /tmp/test.sock..."]⟩
      ⟨[⟨socketCall, 3⟩, ⟨connectCall 3 "/tmp/test.sock", 0⟩,
        ⟨sendCall 3 "hello".data 5, 5⟩],
       ["[i] open UNIX domain socket /tmp/test.sock..."]⟩
      ⟨[⟨socketCall, 3⟩, ⟨connectCall 3 "/tmp/test.sock", 0⟩,
        ⟨sendCall 3 "hello".data 5, 5⟩, ⟨.close 3, 0⟩],
       ["[i] open UNIX domain socket /tmp/test.sock...",
        "[i] close UNIX domain socket /tmp/test.sock..."]⟩
      ⟨[⟨socketCall, 3⟩, ⟨connectCall 3 "/tmp/test.sock", 0⟩,
        ⟨sendCall 3 "hello".data 5, 5⟩, ⟨.close 3, 0⟩, ⟨.close 3, -1⟩],
       ["[i] open UNIX domain socket /tmp/test.sock...",
        "[i] close UNIX domain socket /tmp/test.sock..."]⟩
      3 3 (by decide) (by decide) [⟨.close 3, -1⟩] (by decide) (by decide)
      "hello".data 5).1 (by decide)⟩

/-! ## The Connection invariant -/

theorem openSocket_connected (os : Kernel) (hos : Posix os)
    (self self1 : UnixDomainSocketClient) (w w1 : World) (h : Int)
    (hopen : openSocket os self w = .returned h self1 w1) : Connected self1 w1 := by
  obtain ⟨_, hv, hne, hself1, hrc, hw1⟩ := openSocket_returned os self self1 h w w1 hopen
  have hnonneg : 0 ≤ h := by
    have hs := hos.socket_ret w.trace AF_UNIX SOCK_DGRAM 0
    have hv2 : h = os w.trace (.socket AF_UNIX SOCK_DGRAM 0) := hv
    rw [← hv2] at hs
    rcases hs with hs | ⟨hs, _⟩
    · exact absurd hs hne
    · exact hs
  have hzero : os (w.trace ++ [⟨socketCall, h⟩]) (connectCall h self.m_socketPath) = 0 := by
    rcases hos.connect_ret (w.trace ++ [⟨socketCall, h⟩]) h (addressOf self.m_socketPath)
      SOCKADDR_UN_SIZE with hc | hc
    · exact hc
    · exact absurd hc hrc
  right
  rw [hw1, hself1, hzero]
  exact fdState_open w.trace h (addressOf self.m_socketPath) SOCKADDR_UN_SIZE
    AF_UNIX SOCK_DGRAM 0 hnonneg

theorem run_sends_connected (os : Kernel) (ops : List Op) (self s : UnixDomainSocketClient)
    (w u : World) (hopen : ops.any Op.isOpen = false) (hclose : ops.any Op.isClose = false)
    (hrun : run os ops self w = .returned () s u) (hinv : Connected self w) :
    Connected s u := by
  have hsends : ∀ op ∈ ops, op.isSend = true := by
    intro op hop
    have h1 : op.isOpen = false := by
      rw [List.any_eq_false] at hopen
      simpa using hopen op hop
    have h2 : op.isClose = false := by
      rw [List.any_eq_false] at hclose
      simpa using hclose op hop
    cases op with
    | openSocket => simp [Op.isOpen] at h1
    | closeSocket => simp [Op.isClose] at h2
    | sendData buf n => rfl
  obtain ⟨hs, events, htr, hev, _⟩ := run_sends os ops self s w u hsends hrun
  rcases hinv with h0 | hconn
  · left
    rw [hs]; exact h0
  · right
    rw [hs, htr, fdState_sends _ _ w.trace events hev]
    exact hconn

theorem run_connected (os : Kernel) (hos : Posix os) (ops : List Op)
    (self s : UnixDomainSocketClient) (w u : World)
    (hrun : run os ops self w = .returned () s u)
    (hopened : ops.any Op.isOpen = true) (hlast : closedAfterOpen ops = false) :
    Connected s u := by
  induction ops generalizing self w with
  | nil => simp at hopened
  | cons op rest ih =>
    obtain ⟨v, s1, w1, hexec, hrest⟩ := run_cons os op rest self s w u hrun
    by_cases hany : rest.any Op.isOpen = true
    · have hl : closedAfterOpen rest = false := by
        rw [closedAfterOpen, if_pos hany] at hlast
        exact hlast
      exact ih s1 w1 hrest hany hl
    · have hany2 : rest.any Op.isOpen = false := by simpa using hany
      rw [closedAfterOpen, if_neg hany] at hlast
      have hop : op.isOpen = true := by
        rw [List.any_cons, hany2, Bool.or_false] at hopened
        exact hopened
      have hnoclose : rest.any Op.isClose = false := by
        rw [hop, Bool.true_and] at hlast
        exact hlast
      cases op with
      | sendData buf n => simp [Op.isOpen] at hop
      | closeSocket => simp [Op.isOpen] at hop
      | openSocket =>
        have hc := openSocket_connected os hos self s1 w w1 v hexec
        exact run_sends_connected os rest s1 s w1 u hany2 hnoclose hrest hc

/-- C7, where the claim fails: on the reference kernel, after a successful `openSocket`
and a successful `closeSocket` the handle field still holds `3`, which is neither the
sentinel nor, any longer, an open socket: the trace says descriptor `3` is closed. -/
theorem C7_counterexample_after_close :
    run shellHost.kernel [.openSocket, .closeSocket] (.ctor "/tmp/test.sock") World.initial =
      .returned () ⟨3, "/tmp/test.sock"⟩
        ⟨[⟨socketCall, 3⟩, ⟨connectCall 3 "/tmp/test.sock", 0⟩, ⟨.close 3, 0⟩],
         ["[i] open UNIX domain socket /tmp/test.sock...",
          "[i] close UNIX domain socket /tmp/test.sock..."]⟩ ∧
    fdState [⟨socketCall, 3⟩, ⟨connectCall 3 "/tmp/test.sock", 0⟩, ⟨.close 3, 0⟩] 3 =
      some .closed ∧
    ¬ Connected ⟨3, "/tmp/test.sock"⟩
        ⟨[⟨socketCall, 3⟩, ⟨connectCall 3 "/tmp/test.sock", 0⟩, ⟨.close 3, 0⟩],
         ["[i] open UNIX domain socket /tmp/test.sock...",
          "[i] close UNIX domain socket /tmp/test.sock..."]⟩ := by
  decide

/-- C7, amended: on a kernel that keeps the return-value contract, in every state reached
from construction by a sequence of `openSocket`, `sendData` and `closeSocket` calls that
return normally and in which no `closeSocket` comes after the last `openSocket`, the
handle field is either the sentinel `0` or names a socket that is open and connected to
the address of the client's path, and the path is the one given at construction. This
covers the state after construction and the state after a successful `openSocket`. -/
theorem C7_connection_invariant (os : Kernel) (hos : Posix os) (socketPath : String)
    (w0 : World) (ops : List Op) (self : UnixDomainSocketClient) (w : World)
    (hrun : run os ops (.ctor socketPath) w0 = .returned () self w)
    (hlast : closedAfterOpen ops = false) :
    Connected self w ∧ self.m_socketPath = socketPath := by
  refine ⟨?_, by rw [run_path os ops _ self w0 w hrun]; rfl⟩
  by_cases hany : ops.any Op.isOpen = true
  · exact run_connected os hos ops _ self w0 w hrun hany hlast
  · have hany2 : ops.any Op.isOpen = false := by simpa using hany
    have hs := run_not_open os ops _ self w0 w hany2 hrun
    left
    rw [hs]; rfl

/-- C7, amended, on the reference kernel: construction, `openSocket`, `closeSocket`, a
second `openSocket` and a `sendData`; the handle names the second socket. -/
theorem C7_connection_invariant_witness :
    Posix shellHost.kernel ∧
    closedAfterOpen [.openSocket, .closeSocket, .openSocket, .sendData "hello".data 5] = false ∧
    Connected ⟨3, "/tmp/test.sock"⟩
      ⟨[⟨socketCall, 3⟩, ⟨connectCall 3 "/tmp/test.sock", 0⟩, ⟨.close 3, 0⟩,
        ⟨socketCall, 3⟩, ⟨connectCall 3 "/tmp/test.sock", 0⟩, ⟨sendCall 3 "hello".data 5, 5⟩],
       ["[i] open UNIX domain socket /tmp/test.sock...",
        "[i] close UNIX domain socket /tmp/test.sock...",
        "[i] open UNIX domain socket /tmp/test.sock..."]⟩ :=
  ⟨shellHost.kernel_posix, by decide,
   (C7_connection_invariant shellHost.kernel shellHost.kernel_posix "/tmp/test.sock"
      World.initial [.openSocket, .closeSocket, .openSocket, .sendData "hello".data 5]
      ⟨3, "/tmp/test.sock"⟩
      ⟨[⟨socketCall, 3⟩, ⟨connectCall 3 "/tmp/test.sock", 0⟩, ⟨.close 3, 0⟩,
        ⟨socketCall, 3⟩, ⟨connectCall 3 "/tmp/test.sock", 0⟩, ⟨sendCall 3 "hello".data 5, 5⟩],
       ["[i] open UNIX domain socket /tmp/test.sock...",
        "[i] close UNIX domain socket /tmp/test.sock...",
        "[i] open UNIX domain socket /tmp/test.sock..."]⟩
      (by decide) (by decide)).1⟩

/-- C9, where the claim fails, on the reference kernel. First ordering: `openSocket`,
`closeSocket`, destruction; the destructor issues a second `close` on descriptor `3`,
which fails, and destruction terminates the process. Second ordering: `openSocket`
twice, destruction; the destructor closes descriptor `4` only, and descriptor `3`, which
the client acquired first, is never released: the final trace has it open. -/
theorem C9_counterexample_double_close_and_leak :
    UnixDomainSocketClient.dtor shellHost.kernel ⟨3, "/tmp/test.sock"⟩
        (run shellHost.kernel [.openSocket, .closeSocket]
          (.ctor "/tmp/test.sock") World.initial).world =
      .died "[i] close error"
        ⟨[⟨socketCall, 3⟩, ⟨connectCall 3 "/tmp/test.sock", 0⟩, ⟨.close 3, 0⟩,
          ⟨.close 3, -1⟩],
         ["[i] open UNIX domain socket /tmp/test.sock...",
          "[i] close UNIX domain socket /tmp/test.sock...",
          "[i] close UNIX domain socket /tmp/test.sock..."]⟩ ∧
    run shellHost.kernel [.openSocket, .openSocket] (.ctor "/tmp/test.sock") World.initial =
      .returned () ⟨4, "/tmp/test.sock"⟩
        ⟨[⟨socketCall, 3⟩, ⟨connectCall 3 "/tmp/test.sock", 0⟩,
          ⟨socketCall, 4⟩, ⟨connectCall 4 "/tmp/test.sock", 0⟩],
         ["[i] open UNIX domain socket /tmp/test.sock...",
          "[i] open UNIX domain socket /tmp/test.sock..."]⟩ ∧
    UnixDomainSocketClient.dtor shellHost.kernel ⟨4, "/tmp/test.sock"⟩
        ⟨[⟨socketCall, 3⟩, ⟨connectCall 3 "/tmp/test.sock", 0⟩,
          ⟨socketCall, 4⟩, ⟨connectCall 4 "/tmp/test.sock", 0⟩],
         ["[i] open UNIX domain socket /tmp/test.sock...",
          "[i] open UNIX domain socket /tmp/test.sock..."]⟩ =
      .returned () ⟨4, "/tmp/test.sock"⟩
        ⟨[⟨socketCall, 3⟩, ⟨connectCall 3 "/tmp/test.sock", 0⟩,
          ⟨socketCall, 4⟩, ⟨connectCall 4 "/tmp/test.sock", 0⟩, ⟨.close 4, 0⟩],
         ["[i] open UNIX domain socket /tmp/test.sock...",
          "[i] open UNIX domain socket /tmp/test.sock...",
          "[i] close UNIX domain socket /tmp/test.sock..."]⟩ ∧
    fdState [⟨socketCall, 3⟩, ⟨connectCall 3 "/tmp/test.sock", 0⟩,
        ⟨socketCall, 4⟩, ⟨connectCall 4 "/tmp/test.sock", 0⟩, ⟨.close 4, 0⟩] 3 =
      some (.sock (some (addressOf "/tmp/test.sock"))) ∧
    releases [⟨socketCall, 3⟩, ⟨connectCall 3 "/tmp/test.sock", 0⟩,
        ⟨socketCall, 4⟩, ⟨connectCall 4 "/tmp/test.sock", 0⟩, ⟨.close 4, 0⟩] 3 = 0 := by
  decide

/-- C9, amended: for every client whose `openSocket` succeeded with handle `h` and on
which only `sendData` was called since, the destructor issues exactly one system call,
a `close` on `h`; it is the only `close` call issued since `openSocket` returned, so in
the ordering construction, `openSocket`, `sendData` calls, destruction the handle is
released exactly once. When that `close` succeeds the destructor returns without
terminating the process; when it fails the process terminates through `die`. -/
theorem C9_destructor_releases_open_handle (os : Kernel)
    (self self1 self2 : UnixDomainSocketClient) (w w1 w2 : World) (h : Int)
    (hopen : openSocket os self w = .returned h self1 w1)
    (sends : List Op) (hsends : ∀ op ∈ sends, op.isSend = true)
    (hrun : run os sends self1 w1 = .returned () self2 w2) :
    let r := os w2.trace (.close h)
    (UnixDomainSocketClient.dtor os self2 w2).issued w2 = [⟨.close h, r⟩] ∧
      closeCalls ((UnixDomainSocketClient.dtor os self2 w2).issued w1) = [⟨.close h, r⟩] ∧
      (r = 0 →
        UnixDomainSocketClient.dtor os self2 w2 =
          .returned () self2
            { trace := w2.trace ++ [⟨.close h, 0⟩], stdout := w2.stdout ++ [closeLine self2] } ∧
          releases ((UnixDomainSocketClient.dtor os self2 w2).issued w1) h = 1) ∧
      (r ≠ 0 → (UnixDomainSocketClient.dtor os self2 w2).isDied = true) := by
  intro r
  obtain ⟨_, _, _, hself1, _, _⟩ := openSocket_returned os self self1 h w w1 hopen
  obtain ⟨hs, events, htr, hev, _⟩ := run_sends os sends self1 self2 w1 w2 hsends hrun
  have hfd : self2.m_fileDescriptor = h := by rw [hs, hself1]
  have hnone : closeCalls events = [] := closeCalls_sends _ events hev
  have hworld : (UnixDomainSocketClient.dtor os self2 w2).world.trace =
      w2.trace ++ [⟨.close h, r⟩] := by
    rw [dtor_eq, hfd]
    by_cases hr : os w2.trace (.close h) = 0
    · rw [if_pos hr]
      show w2.trace ++ [⟨.close h, 0⟩] = w2.trace ++ [⟨.close h, r⟩]
      rw [show r = 0 from hr]
    · rw [if_neg hr]
      rfl
  have hissued1 : (UnixDomainSocketClient.dtor os self2 w2).issued w1 =
      events ++ [⟨.close h, r⟩] := by
    apply issued_append
    rw [hworld, htr, List.append_assoc]
  have hcalls : closeCalls (events ++ [(⟨.close h, r⟩ : Event)]) = [⟨.close h, r⟩] := by
    unfold closeCalls at hnone ⊢
    rw [List.filter_append, hnone]
    rfl
  refine ⟨issued_append _ w2 _ hworld, by rw [hissued1]; exact hcalls, fun hr => ⟨?_, ?_⟩,
    fun hr => ?_⟩
  · rw [dtor_eq, hfd, if_pos hr]
  · rw [hissued1]
    have hr0 : r = 0 := hr
    unfold releases
    rw [List.countP_append, hr0]
    have hzero : List.countP (fun e => e == (⟨.close h, 0⟩ : Event)) events = 0 := by
      rw [List.countP_eq_zero]
      intro e he
      obtain ⟨buf, n, hcall⟩ := hev e he
      intro heq
      have : e = ⟨.close h, 0⟩ := by simpa using heq
      rw [this] at hcall
      simp [sendCall] at hcall
    rw [hzero]
    simp
  · rw [dtor_eq, hfd, if_neg hr]
    rfl

/-- C9, amended, on the reference kernel: construction, `openSocket`, one `sendData`,
destruction; the destructor issues the one `close` on descriptor `3`. -/
theorem C9_destructor_releases_open_handle_witness :
    openSocket shellHost.kernel ⟨0, "/tmp/test.sock"⟩ World.initial =
      .returned 3 ⟨3, "/tmp/test.sock"⟩
        ⟨[⟨socketCall, 3⟩, ⟨connectCall 3 "/tmp/test.sock", 0⟩],
         ["[i] open UNIX domain socket /tmp/test.sock..."]⟩ ∧
    (UnixDomainSocketClient.dtor shellHost.kernel ⟨3, "/tmp/test.sock"⟩
        ⟨[⟨socketCall, 3⟩, ⟨connectCall 3 "/tmp/test.sock", 0⟩,
          ⟨sendCall 3 "hello".data 5, 5⟩],
         ["[i] open UNIX domain socket /tmp/test.sock..."]⟩).issued
        ⟨[⟨socketCall, 3⟩, ⟨connectCall 3 "/tmp/test.sock", 0⟩,
          ⟨sendCall 3 "hello".data 5, 5⟩],
         ["[i] open UNIX domain socket /tmp/test.sock..."]⟩ =
      [⟨.close 3, shellHost.kernel [⟨socketCall, 3⟩, ⟨connectCall 3 "/tmp/test.sock", 0⟩,
          ⟨sendCall 3 "hello".data 5, 5⟩] (.close 3)⟩] :=
  ⟨by decide,
   (C9_destructor_releases_open_handle shellHost.kernel ⟨0, "/tmp/test.sock"⟩
      ⟨3, "/tmp/test.sock"⟩ ⟨3, "/tmp/test.sock"⟩ World.initial
      ⟨[⟨socketCall, 3⟩, ⟨connectCall 3 "/tmp/test.sock", 0⟩],
       ["[i] open UNIX domain socket /tmp/test.sock..."]⟩
      ⟨[⟨socketCall, 3⟩, ⟨connectCall 3 "/tmp/test.sock", 0⟩, ⟨sendCall 3 "hello".data 5, 5⟩],
       ["[i] open UNIX domain socket /tmp/test.sock..."]⟩
      3 (by decide) [.sendData "hello".data 5] (by decide) (by decide)).1⟩

end UDS
